import Mathlib

/-!
Verification development for the reda SPICE/LEF parser core.

The Rust sources under verification are two nom-based recursive-descent
parsers:

* the SPICE netlist parser (`rspice/src/parse/{base,source,simulate,subckt,mod}.rs`
  and `reda-spice/src/parse/{components,measures}.rs` — the two crates are
  two versions of the same parser and the claim sources mix them freely);
* the LEF technology-library parser (`rlef/src/io/read/base.rs` and
  `reda-lef/src/io/read/mod.rs`).

The embedding models:

* input as `List Char` (a nom `&str` slice; every slice the parsers hold is a
  suffix of the original input, so pointer arithmetic on slices becomes
  length arithmetic);
* `nom::IResult<&str, O, VerboseError<&str>>` as `PRes O` below, with the
  three outcomes `ok` (remaining input + value), `err` (recoverable
  `Err::Error`) and `fail` (fatal `Err::Failure`); `Err::Incomplete` never
  arises for the `complete`-flavored primitives used by this code and is
  not modeled;
* `f64` values as `DecVal`, an exact decimal `num / 10 ^ exp` kept in the
  canonical form where `exp > 0 → ¬ 10 ∣ num`: every numeric literal of the
  grammar is a finite decimal and the parsers do no arithmetic on the
  parsed magnitudes, so the exact decimal value is a lossless model and its
  canonical form makes structural equality coincide with value equality.
-/

/-- A model of a Rust `&str` parser-input slice. -/
abbrev Str := List Char

/-- Decidable equality for `Except`, used to evaluate driver results. -/
instance {ε α : Type} [DecidableEq ε] [DecidableEq α] : DecidableEq (Except ε α) :=
  fun x y =>
    match x, y with
    | .ok a, .ok b =>
      if h : a = b then isTrue (by rw [h])
      else isFalse (fun hh => h (Except.ok.inj hh))
    | .error a, .error b =>
      if h : a = b then isTrue (by rw [h])
      else isFalse (fun hh => h (Except.error.inj hh))
    | .ok _, .error _ => isFalse (fun hh => Except.noConfusion hh)
    | .error _, .ok _ => isFalse (fun hh => Except.noConfusion hh)

/-- A model of `nom::error::VerboseError<&str>`: the stack of
(remaining-input slice, context label) pairs. -/
abbrev VErrors := List (Str × String)

/-- A model of `nom::IResult<&str, O, VerboseError<&str>>` restricted to the
`complete` parsers used by this code: success with remaining input, a
recoverable `Err::Error`, or a fatal `Err::Failure`. -/
inductive PRes (α : Type) where
  | ok (rest : Str) (val : α)
  | err (e : VErrors)
  | fail (e : VErrors)
deriving Repr, DecidableEq

/-- Did the parser succeed? -/
def PRes.isOk {α : Type} : PRes α → Bool
  | .ok _ _ => true
  | _ => false

/-- Is the outcome a recoverable `Err::Error` (plain mismatch)? -/
def PRes.isErr {α : Type} : PRes α → Bool
  | .err _ => true
  | _ => false

/-- Is the outcome a fatal `Err::Failure`? -/
def PRes.isFail {α : Type} : PRes α → Bool
  | .fail _ => true
  | _ => false

/-- `rspice/src/parse/base.rs` lines 18-29, trait `ToFailure`:
`Err::Error` is promoted to `Err::Failure`, everything else is unchanged. -/
def toFailure {α : Type} : PRes α → PRes α
  | .err e => .fail e
  | o => o

/-- `nom::error::context`: on error, push a `(input, label)` context entry on
the error stack (nom appends at the end of the `errors` vector). -/
def ctxP {α : Type} (label : String) (p : Str → PRes α) : Str → PRes α := fun input =>
  match p input with
  | .ok r v => .ok r v
  | .err e => .err (e ++ [(input, label)])
  | .fail e => .fail (e ++ [(input, label)])

/-- `rspice/src/parse/base.rs` lines 72-85, macro `wrap_parser!`: replace the
error contents with the single entry `(input, ctx)`, preserving the
error/failure distinction. -/
def wrapParser {α : Type} (r : PRes α) (input : Str) (c : String) : PRes α :=
  match r with
  | .ok rest v => .ok rest v
  | .err _ => .err [(input, c)]
  | .fail _ => .fail [(input, c)]

/-- `nom::branch::alt` step: try the second branch on a recoverable error
(keeping the later error, as `VerboseError::or` does), propagate success and
fatal failure. -/
def orElse {α : Type} (r : PRes α) (q : Unit → PRes α) : PRes α :=
  match r with
  | .err _ => q ()
  | o => o

/-- `nom::bytes::complete::tag`. -/
def tagP (t : String) (input : Str) : PRes Str :=
  let tl := t.data
  if input.take tl.length = tl then
    .ok (input.drop tl.length) tl
  else .err [(input, "tag")]

/-- `nom::bytes::complete::tag_no_case` (ASCII case-folding, which covers
every tag this grammar uses except the `Ω` rows of `resistance_number`,
never exercised case-insensitively by the theorems below). -/
def tagNoCase (t : String) (input : Str) : PRes Str :=
  let tl := t.data
  if (input.take tl.length).map Char.toLower = tl.map Char.toLower then
    .ok (input.drop tl.length) (input.take tl.length)
  else .err [(input, "tag_no_case")]

/-- Drop leading `' '` and `'\t'` (the `while i.starts_with(' ') || i.starts_with('\t')`
loop of `smart_space0`, also `nom::character::complete::space0`). -/
def dropHT : Str → Str
  | [] => []
  | c :: rest => if c = ' ' ∨ c = '\t' then dropHT rest else c :: rest

/-- The loop of `smart_space0`, made structural on a fuel argument so that
the kernel can evaluate it (each iteration consumes at least one character,
so fuel `length + 1` is never exhausted). -/
def smartSpace0Go : Nat → Str → Str
  | 0, s => s
  | fuel + 1, s =>
    match s with
    | [] => []
    | c :: rest =>
      if c = ' ' ∨ c = '\t' ∨ c = '\r' then smartSpace0Go fuel rest
      else if c = '\n' then
        match rest with
        | '+' :: rest2 => smartSpace0Go fuel (dropHT rest2)
        | _ => c :: rest
      else c :: rest

/-- `rspice/src/parse/base.rs` lines 41-63, `smart_space0`: space/tab/CR are
skipped; a newline is skipped only when immediately followed by `'+'`, in
which case the `'+'` and any following space/tab are consumed too; a bare
newline (or any other character) stops the skipper.  The Rust function
always returns `Ok((i, ()))`, so the model returns the remaining input. -/
def smart_space0 (s : Str) : Str := smartSpace0Go (s.length + 1) s

/-- `rspice/src/parse/base.rs` lines 65-70, `hws`:
`delimited(smart_space0, inner, smart_space0)`. -/
def hws {α : Type} (p : Str → PRes α) : Str → PRes α := fun input =>
  match p (smart_space0 input) with
  | .ok rest v => .ok (smart_space0 rest) v
  | e => e

/-- First character of an identifier: `alt((alpha1, tag("_")))`
(nom `alpha1` is ASCII-only, as is `Char.isAlpha`). -/
def isIdentStart (c : Char) : Bool := c.isAlpha || c = '_'

/-- Continuation character of a SPICE identifier or node:
`alt((alphanumeric1, tag("_"), tag(".")))`. -/
def isIdentCont (c : Char) : Bool := c.isAlphanum || c = '_' || c = '.'

/-- `rspice/src/parse/base.rs` lines 89-97, `identifier`:
`recognize(pair(alt((alpha1, tag("_"))), many0(alt((alphanumeric1, tag("_"), tag("."))))))`
wrapped with context `"identifier"`.  The greedy nom pipeline recognizes
exactly one start character followed by the maximal run of continuation
characters. -/
def identifier (input : Str) : PRes Str :=
  match input with
  | c :: rest =>
    if isIdentStart c then
      .ok (rest.dropWhile isIdentCont) (c :: rest.takeWhile isIdentCont)
    else .err [(input, "identifier")]
  | [] => .err [([], "identifier")]

/-- `rspice/src/parse/base.rs` lines 101-106, `node`:
`recognize(many1(alt((alphanumeric1, tag("_"), tag(".")))))` with context
`"node"`. -/
def node (input : Str) : PRes Str :=
  match input.takeWhile isIdentCont with
  | [] => .err [(input, "node")]
  | tok => .ok (input.dropWhile isIdentCont) tok

/-- Value of an ASCII digit run, most significant first. -/
def digitsVal (ds : Str) : Nat := ds.foldl (fun a c => a * 10 + (c.toNat - 48)) 0

/-- `rspice/src/parse/base.rs` lines 110-119, `unsigned_int`:
`map_res(recognize(digit1), u32::from_str)` with context `"unsigned_int"`;
`u32::from_str` fails (recoverably, through `map_res`) on overflow. -/
def unsigned_int (input : Str) : PRes Nat :=
  match input.takeWhile Char.isDigit with
  | [] => .err [(input, "unsigned_int")]
  | ds =>
    if digitsVal ds ≤ 4294967295 then
      .ok (input.dropWhile Char.isDigit) (digitsVal ds)
    else .err [(input, "unsigned_int")]

/-- A character of the `decimal` token: digit or `'_'`. -/
def isDecChar (c : Char) : Bool := c.isDigit || c = '_'

/-- `rspice/src/parse/base.rs` lines 137-139 (and identically
`rlef/src/io/read/base.rs` lines 63-65), `decimal`:
`recognize(many1(terminated(one_of("0123456789"), many0(char('_')))))`.
The language `(digit '_'*)+` with maximal munch is: a digit followed by the
maximal run of digits and underscores. -/
def decimal (input : Str) : PRes Str :=
  match input with
  | c :: _ =>
    if c.isDigit then
      .ok (input.dropWhile isDecChar) (input.takeWhile isDecChar)
    else .err [(input, "decimal")]
  | [] => .err [([], "decimal")]

/-- An exact decimal number `num / 10 ^ exp`, the model of the `f64` values
this grammar produces. -/
structure DecVal where
  num : Int
  exp : Nat
deriving Repr, DecidableEq

/-- Canonicalize `n / 10 ^ e` by removing common factors of 10, so that
equal decimal values have equal representations. -/
def normDec : Int → Nat → DecVal
  | n, 0 => ⟨n, 0⟩
  | n, e + 1 => if n % 10 = 0 then normDec (n / 10) e else ⟨n, e + 1⟩

/-- Model of Rust `f64::from_str` on the strings producible by the float
recognizer (optional `'-'`, digit/underscore run, optional `'.'` plus
digit/underscore run): the standard library float grammar accepts digits
with at most one point and NO underscores, so any `'_'` in the recognized
text makes the conversion fail.  Exponents never occur in recognized text
and are not modeled.  The decimal value is returned exactly. -/
def rustF64 (s : Str) : Option DecVal :=
  let (neg, t) : Bool × Str := match s with
    | '-' :: r => (true, r)
    | _ => (false, s)
  let sign : Int := if neg then -1 else 1
  let ip := t.takeWhile Char.isDigit
  let t2 := t.dropWhile Char.isDigit
  match t2 with
  | [] =>
    if ip.isEmpty then none
    else some (normDec (sign * (digitsVal ip : Int)) 0)
  | '.' :: fr =>
    let fp := fr.takeWhile Char.isDigit
    let t3 := fr.dropWhile Char.isDigit
    if t3.isEmpty ∧ (¬ ip.isEmpty ∨ ¬ fp.isEmpty) then
      some (normDec (sign * ((digitsVal ip : Int) * 10 ^ fp.length + (digitsVal fp : Int)))
        fp.length)
    else none
  | _ => none

/-- The prefix of `input` consumed when `rest` remains (`recognize`). -/
def recog (input rest : Str) : Str := input.take (input.length - rest.length)

/-- The recognizer part of `float`:
`alt((recognize(tuple((opt(char('-')), decimal, char('.'), opt(decimal)))), recognize(tuple((opt(char('-')), decimal)))))`. -/
def floatCore (input : Str) : PRes Str :=
  let t := match input with
    | '-' :: r => r
    | _ => input
  match decimal t with
  | .ok r1 _ =>
    -- case one needs '.', with an optional fractional decimal
    (match r1 with
     | '.' :: r2 =>
       (match decimal r2 with
        | .ok r3 _ => .ok r3 (recog input r3)
        | _ => .ok r2 (recog input r2))
     | _ =>
       -- case one fails (no '.'); case two: integer as float
       .ok r1 (recog input r1))
  | _ => .err [(input, "float")]

/-- `rspice/src/parse/base.rs` lines 123-135, `float`: the recognizer above
followed by `map_res(…, f64::from_str)`, all wrapped with context
`"float"`.  A failing conversion (e.g. an underscore in the recognized
text) is a recoverable error, exactly as `map_res` produces. -/
def float (input : Str) : PRes DecVal :=
  match floatCore input with
  | .ok rest s =>
    (match rustF64 s with
     | some v => .ok rest v
     | none => .err [(input, "float")])
  | .err _ => .err [(input, "float")]
  | .fail e => .fail e

/-- The decimal-order scale suffix of the collaborator unit library
(`runit`/`reda_unit::Suffix`). -/
inductive Suffix where
  | Mega | Kilo | Milli | Micro | Nano | Pico | None
deriving Repr, DecidableEq

/-- `runit`/`reda_unit::Number`: a magnitude and a scale suffix. -/
structure Number where
  value : DecVal
  suffix : Suffix
deriving Repr, DecidableEq

/-- The physical-quantity wrappers (`Voltage`, `Time`, …) carry exactly a
`Number`; `Number.into()` is the identity on the carried data. -/
abbrev Voltage := Number
abbrev Current := Number
abbrev Resistance := Number
abbrev Capacitance := Number
abbrev Inductance := Number
abbrev Time := Number
abbrev Frequency := Number
abbrev Angle := Number
abbrev Length := Number

/-- `opt(alt(...))` over a list of case-insensitive suffix rows, in source
order: the first row whose tag matches wins; none matching is `none`
(`opt` backtracks). -/
def suffixAlt : List (String × Suffix) → Str → Option (Str × Suffix)
  | [], _ => none
  | (t, s) :: rows, input =>
    match tagNoCase t input with
    | .ok r _ => some (r, s)
    | _ => suffixAlt rows input

/-- Shared body of the quantity parsers: `float`, then the optional suffix
table, then `suffix.unwrap_or(Suffix::None)`; errors are replaced by
`wrap_parser!` with the given label at the original input. -/
def numberWith (rows : List (String × Suffix)) (label : String) (input : Str) :
    PRes Number :=
  match float input with
  | .ok r v =>
    (match suffixAlt rows r with
     | some (r2, s) => .ok r2 ⟨v, s⟩
     | none => .ok r ⟨v, .None⟩)
  | .err _ => .err [(input, label)]
  | .fail _ => .fail [(input, label)]

/-- `rspice/src/parse/base.rs` lines 141-163, `number`. -/
def number : Str → PRes Number :=
  numberWith
    [("g", .Mega), ("meg", .Mega), ("k", .Kilo), ("m", .Milli),
     ("u", .Micro), ("n", .Nano), ("p", .Pico)]
    "expect number"

/-- `rspice/src/parse/base.rs` lines 165-195, `time_number`. -/
def time_number : Str → PRes Time :=
  numberWith
    [("gs", .Mega), ("megs", .Mega), ("ks", .Kilo), ("ms", .Milli),
     ("us", .Micro), ("ns", .Nano), ("ps", .Pico),
     ("g", .Mega), ("meg", .Mega), ("k", .Kilo), ("m", .Milli),
     ("u", .Micro), ("n", .Nano), ("p", .Pico), ("s", .None)]
    "expect time number"

/-- `rspice/src/parse/base.rs` lines 197-227, `voltage_number`. -/
def voltage_number : Str → PRes Voltage :=
  numberWith
    [("gv", .Mega), ("megv", .Mega), ("kv", .Kilo), ("mv", .Milli),
     ("uv", .Micro), ("nv", .Nano), ("pv", .Pico),
     ("g", .Mega), ("meg", .Mega), ("k", .Kilo), ("m", .Milli),
     ("u", .Micro), ("n", .Nano), ("p", .Pico), ("v", .None)]
    "expect voltage number"

/-- `rspice/src/parse/base.rs` lines 229-259, `current_number`. -/
def current_number : Str → PRes Current :=
  numberWith
    [("gA", .Mega), ("megA", .Mega), ("kA", .Kilo), ("mA", .Milli),
     ("uA", .Micro), ("nA", .Nano), ("pA", .Pico),
     ("g", .Mega), ("meg", .Mega), ("k", .Kilo), ("m", .Milli),
     ("u", .Micro), ("n", .Nano), ("p", .Pico), ("A", .None)]
    "expect current number"

/-- `rspice/src/parse/base.rs` lines 261-291, `resistance_number`. -/
def resistance_number : Str → PRes Resistance :=
  numberWith
    [("gΩ", .Mega), ("megΩ", .Mega), ("kΩ", .Kilo), ("mΩ", .Milli),
     ("uΩ", .Micro), ("nΩ", .Nano), ("pΩ", .Pico),
     ("g", .Mega), ("meg", .Mega), ("k", .Kilo), ("m", .Milli),
     ("u", .Micro), ("n", .Nano), ("p", .Pico), ("Ω", .None)]
    "expect resistance number"

/-- `rspice/src/parse/base.rs` lines 293-323, `capacitance_number`. -/
def capacitance_number : Str → PRes Capacitance :=
  numberWith
    [("gF", .Mega), ("megF", .Mega), ("kF", .Kilo), ("mF", .Milli),
     ("uF", .Micro), ("nF", .Nano), ("pF", .Pico),
     ("g", .Mega), ("meg", .Mega), ("k", .Kilo), ("m", .Milli),
     ("u", .Micro), ("n", .Nano), ("p", .Pico), ("F", .None)]
    "expect capacitance number"

/-- `rspice/src/parse/base.rs` lines 325-355, `inductance_number`.
NOTE the last row: the source maps the bare unit letter `H` to
`Suffix::Pico` (line 343), unlike every sibling quantity parser, whose
bare unit letter maps to `Suffix::None`. -/
def inductance_number : Str → PRes Inductance :=
  numberWith
    [("gH", .Mega), ("megH", .Mega), ("kH", .Kilo), ("mH", .Milli),
     ("uH", .Micro), ("nH", .Nano), ("pH", .Pico),
     ("g", .Mega), ("meg", .Mega), ("k", .Kilo), ("m", .Milli),
     ("u", .Micro), ("n", .Nano), ("p", .Pico), ("H", .Pico)]
    "expect inductance number"

/-- `rspice/src/parse/base.rs` lines 357-360, `frequency_number`:
plain `number`, errors passed through unchanged. -/
def frequency_number : Str → PRes Frequency := number

/-- `rspice/src/parse/base.rs` lines 362-365, `angle_number`. -/
def angle_number : Str → PRes Angle := number

/-- Rust `str::trim_end` on text that contains no newline: drop trailing
spaces and tabs. -/
def trimEnd (s : Str) : Str := (dropHT s.reverse).reverse

/-- `rspice/src/parse/base.rs` lines 367-381, `comment`: `'*'` or `';'`,
optional horizontal space, the rest of the line, terminated by a line
ending or end of input; the text is `trim_end`ed. -/
def comment (input : Str) : PRes Str :=
  match input with
  | c :: rest =>
    if c = '*' ∨ c = ';' then
      let afterSp := dropHT rest
      let text := afterSp.takeWhile (fun ch => ¬ (ch = '\n' ∨ ch = '\r'))
      let rest2 := afterSp.dropWhile (fun ch => ¬ (ch = '\n' ∨ ch = '\r'))
      match rest2 with
      | '\r' :: '\n' :: r3 => .ok r3 (trimEnd text)
      | '\n' :: r3 => .ok r3 (trimEnd text)
      | [] => .ok [] (trimEnd text)
      | _ => .err [(input, "comment")]
    else .err [(input, "comment")]
  | [] => .err [([], "comment")]

/-! ## Generic combinator plumbing shared by the grammar productions -/

/-- The Rust `?` operator on a `nom` result: propagate errors, continue on
success with the remaining input and the value. -/
def PRes.bind {α β : Type} (r : PRes α) (f : Str → α → PRes β) : PRes β :=
  match r with
  | .ok rest v => f rest v
  | .err e => .err e
  | .fail e => .fail e

/-- `nom::combinator::map` on the parse result. -/
def pmap {α β : Type} (f : α → β) : PRes α → PRes β
  | .ok rest v => .ok rest (f v)
  | .err e => .err e
  | .fail e => .fail e

/-- `nom::combinator::opt`: a recoverable error becomes `none` without
consuming input; success and fatal failure pass through. -/
def optP {α : Type} (p : Str → PRes α) (input : Str) : PRes (Option α) :=
  match p input with
  | .ok r v => .ok r (some v)
  | .err _ => .ok input none
  | .fail e => .fail e

/-- `nom::multi::many0`, with explicit fuel (callers pass `input.length + 1`;
each successful step must consume input — nom's infinite-loop guard turns a
non-consuming success into an error — so the fuel is never exhausted). -/
def many0 {α : Type} (p : Str → PRes α) : Nat → Str → PRes (List α)
  | 0, input => .ok input []
  | fuel + 1, input =>
    match p input with
    | .ok rest v =>
      if rest.length = input.length then .err [(input, "many0")]
      else (many0 p fuel rest).bind fun r vs => .ok r (v :: vs)
    | .err _ => .ok input []
    | .fail e => .fail e

/-- Rust `char::is_whitespace` on the ASCII repertoire this grammar uses
(`str::trim_start` / `str::trim`). -/
def isRustWS (c : Char) : Bool := c = ' ' || c = '\t' || c = '\n' || c = '\r'

/-- Rust `str::trim`. -/
def trimBoth (s : Str) : Str := ((s.dropWhile isRustWS).reverse.dropWhile isRustWS).reverse

/-! ## SPICE data model
(`reda-spice/src/model/components/{basic,model,mosfet}.rs`,
`rspice/src/model/{components,sources,control}/...`).  Rust `HashMap`s are
modeled as association lists with insert-overwrites semantics. -/

/-- `HashMap::insert`: overwrite an existing binding, else append. -/
def hmInsert (m : List (String × Number)) (k : String) (v : Number) :
    List (String × Number) :=
  match m with
  | [] => [(k, v)]
  | (k', v') :: rest => if k' = k then (k, v) :: rest else (k', v') :: hmInsert rest k v

/-- Collect a key/value sequence into a map (`FromIterator for HashMap`:
later duplicates win). -/
def hmCollect (l : List (String × Number)) : List (String × Number) :=
  l.foldl (fun m kv => hmInsert m kv.1 kv.2) []

structure Resistor where
  name : String
  node_pos : String
  node_neg : String
  resistance : Resistance
deriving Repr, DecidableEq

structure Capacitor where
  name : String
  node_pos : String
  node_neg : String
  capacitance : Capacitance
deriving Repr, DecidableEq

structure Inductor where
  name : String
  node_pos : String
  node_neg : String
  inductance : Inductance
deriving Repr, DecidableEq

structure Diode where
  name : String
  node_pos : String
  node_neg : String
  model_name : String
deriving Repr, DecidableEq

structure BJT where
  name : String
  collector : String
  base : String
  emitter : String
  model_name : String
deriving Repr, DecidableEq

structure MosFET where
  name : String
  drain : String
  gate : String
  source : String
  bulk : String
  model_name : String
  length : Length
  width : Length
  parameters : List (String × Number)
deriving Repr, DecidableEq

inductive Component where
  | R (r : Resistor)
  | C (c : Capacitor)
  | L (l : Inductor)
  | D (d : Diode)
  | Q (q : BJT)
  | M (m : MosFET)
deriving Repr, DecidableEq

structure AcVoltage where
  magnitude : Voltage
  phase_deg : Angle
deriving Repr, DecidableEq

structure AcCurrent where
  magnitude : Current
  phase_deg : Angle
deriving Repr, DecidableEq

structure SineVoltage where
  vo : Voltage
  va : Voltage
  freq_hz : Frequency
  delay : Time
  damping : Frequency
  phase_deg : Number
deriving Repr, DecidableEq

structure PwlVoltage where
  points : List (Time × Voltage)
deriving Repr, DecidableEq

structure PulseVoltage where
  v0 : Voltage
  v1 : Voltage
  delay : Time
  rise : Time
  fall : Time
  width : Time
  period : Time
deriving Repr, DecidableEq

inductive SourceValue where
  | DcVoltage (v : Voltage)
  | DcCurrent (c : Current)
  | AcVoltage (a : AcVoltage)
  | AcCurrent (a : AcCurrent)
  | Sin (s : SineVoltage)
  | Pwl (p : PwlVoltage)
  | Pulse (p : PulseVoltage)
deriving Repr, DecidableEq

inductive SourceKind where
  | Voltage
  | Current
deriving Repr, DecidableEq

structure Source where
  name : String
  node_pos : String
  node_neg : String
  value : SourceValue
deriving Repr, DecidableEq

structure DcCommand where
  src_name : String
  start : Voltage
  stop : Voltage
  step : Voltage
deriving Repr, DecidableEq

inductive AcSweepType where
  | Lin | Dec | Oct
deriving Repr, DecidableEq

structure AcCommand where
  sweep_type : AcSweepType
  points : Nat
  f_start : Frequency
  f_stop : Frequency
deriving Repr, DecidableEq

structure TranCommand where
  t_step : Time
  t_stop : Time
  t_start : Option Time
  t_max : Option Time
  uic : Bool
deriving Repr, DecidableEq

inductive SimCommand where
  | Dc (d : DcCommand)
  | Ac (a : AcCommand)
  | Tran (t : TranCommand)
deriving Repr, DecidableEq

inductive AnalysisType where
  | Tran | Ac | Dc
deriving Repr, DecidableEq

inductive OutputSuffix where
  | Magnitude | Decibel | Phase | Real | Imag
deriving Repr, DecidableEq

inductive OutputVariable where
  | Voltage (node1 : String) (node2 : Option String) (suffix : Option OutputSuffix)
  | Current (element_name : String) (suffix : Option OutputSuffix)
deriving Repr, DecidableEq

inductive EdgeType where
  | Rise | Fall
deriving Repr, DecidableEq

structure TrigTargCondition where
  variable_ : OutputVariable
  value : Number
  edge : EdgeType
  number : Nat
deriving Repr, DecidableEq

inductive MeasureFunction where
  | Avg | Rms | Min | Max | Pp | Deriv | Integrate
deriving Repr, DecidableEq

structure MeasureRise where
  name : String
  analysis : AnalysisType
  trig : TrigTargCondition
  targ : TrigTargCondition
deriving Repr, DecidableEq

structure MeasureBasicStat where
  name : String
  analysis : AnalysisType
  stat : MeasureFunction
  variable_ : OutputVariable
  from_ : Time
  to_ : Time
deriving Repr, DecidableEq

structure FindWhenCondition where
  variable_ : OutputVariable
  value : Number
deriving Repr, DecidableEq

structure MeasureFindWhen where
  name : String
  analysis : AnalysisType
  variable_ : OutputVariable
  when_ : FindWhenCondition
deriving Repr, DecidableEq

inductive MeasureCommand where
  | Rise (m : MeasureRise)
  | BasicStat (m : MeasureBasicStat)
  | FindWhen (m : MeasureFindWhen)
deriving Repr, DecidableEq

inductive ModelKind where
  | NPN | Diode | NMos | PMos
deriving Repr, DecidableEq

structure Model where
  name : String
  kind : ModelKind
  parameters : List (String × Number)
deriving Repr, DecidableEq

structure Instance where
  name : String
  pins : List String
  subckt_name : String
deriving Repr, DecidableEq

structure Subckt where
  name : String
  ports : List String
  components : List Component
  instances : List Instance
deriving Repr, DecidableEq

/-! ## SPICE component productions (`reda-spice/src/parse/components.rs`) -/

/-- `reda-spice/src/parse/components.rs` lines 235-240, `parameter_pair`:
`key '=' value` with `hws` around each token. -/
def parameter_pair (input : Str) : PRes (String × Number) :=
  (hws identifier input).bind fun i k =>
  (hws (tagP "=") i).bind fun i2 _ =>
  (hws number i2).bind fun i3 v =>
  .ok i3 (String.mk k, v)

/-- `reda-spice/src/parse/components.rs` lines 23-45, `resistor`:
name (must begin with `R`/`r`, else a recoverable rejection), then two
nodes and a resistance value, each promoted to fatal by `.to_failure()`;
the stored name is `name[1..]`. -/
def resistor (input : Str) : PRes Resistor :=
  ctxP "resistor" (fun input =>
    (ctxP "name" (hws identifier) input).bind fun i name =>
    if name.head? = some 'R' ∨ name.head? = some 'r' then
      (toFailure (hws node i)).bind fun i2 np =>
      (toFailure (hws node i2)).bind fun i3 nn =>
      (toFailure (hws resistance_number i3)).bind fun i4 r =>
      .ok i4 { name := String.mk (name.drop 1), node_pos := String.mk np,
               node_neg := String.mk nn, resistance := r }
    else .err [(i, "should begin with R")]) input

/-- `reda-spice/src/parse/components.rs` lines 48-71, `capacitor`. -/
def capacitor (input : Str) : PRes Capacitor :=
  ctxP "capacitor" (fun input =>
    (ctxP "name" (hws identifier) input).bind fun i name =>
    if name.head? = some 'C' ∨ name.head? = some 'c' then
      (toFailure (hws node i)).bind fun i2 np =>
      (toFailure (hws node i2)).bind fun i3 nn =>
      (toFailure (hws capacitance_number i3)).bind fun i4 v =>
      .ok i4 { name := String.mk (name.drop 1), node_pos := String.mk np,
               node_neg := String.mk nn, capacitance := v }
    else .err [(i, "should begin with C")]) input

/-- `reda-spice/src/parse/components.rs` lines 74-97, `inductor`. -/
def inductor (input : Str) : PRes Inductor :=
  ctxP "inductor" (fun input =>
    (ctxP "name" (hws identifier) input).bind fun i name =>
    if name.head? = some 'L' ∨ name.head? = some 'l' then
      (toFailure (hws node i)).bind fun i2 np =>
      (toFailure (hws node i2)).bind fun i3 nn =>
      (toFailure (hws inductance_number i3)).bind fun i4 v =>
      .ok i4 { name := String.mk (name.drop 1), node_pos := String.mk np,
               node_neg := String.mk nn, inductance := v }
    else .err [(i, "should begin with L")]) input

/-- `reda-spice/src/parse/components.rs` lines 100-123, `diode`. -/
def diode (input : Str) : PRes Diode :=
  ctxP "diode" (fun input =>
    (ctxP "name" (hws identifier) input).bind fun i name =>
    if name.head? = some 'D' ∨ name.head? = some 'd' then
      (toFailure (hws node i)).bind fun i2 np =>
      (toFailure (hws node i2)).bind fun i3 nn =>
      (toFailure (hws identifier i3)).bind fun i4 mn =>
      .ok i4 { name := String.mk (name.drop 1), node_pos := String.mk np,
               node_neg := String.mk nn, model_name := String.mk mn }
    else .err [(i, "should begin with D")]) input

/-- `reda-spice/src/parse/components.rs` lines 126-151, `bjt`. -/
def bjt (input : Str) : PRes BJT :=
  ctxP "bjt" (fun input =>
    (ctxP "name" (hws identifier) input).bind fun i name =>
    if name.head? = some 'Q' ∨ name.head? = some 'q' then
      (toFailure (hws node i)).bind fun i2 c =>
      (toFailure (hws node i2)).bind fun i3 b =>
      (toFailure (hws node i3)).bind fun i4 e =>
      (toFailure (hws identifier i4)).bind fun i5 mn =>
      .ok i5 { name := String.mk (name.drop 1), collector := String.mk c,
               base := String.mk b, emitter := String.mk e, model_name := String.mk mn }
    else .err [(i, "should begin with Q")]) input

/-- The `for (k, v) in raw_parameters` loop of `mos_fet`
(`reda-spice/src/parse/components.rs` lines 179-188): `l`/`w` keys, compared
after `to_ascii_lowercase`, set the length/width builder fields (a later
occurrence overwrites an earlier one, as repeated setter calls do); every
other key is inserted into the parameter map. -/
def mosStep (acc : Option Length × Option Length × List (String × Number))
    (kv : String × Number) : Option Length × Option Length × List (String × Number) :=
  if kv.1.data.map Char.toLower = "l".data then (some kv.2, acc.2.1, acc.2.2)
  else if kv.1.data.map Char.toLower = "w".data then (acc.1, some kv.2, acc.2.2)
  else (acc.1, acc.2.1, hmInsert acc.2.2 kv.1 kv.2)

/-- The loop over all pairs, starting from the fresh builder/parameter
state. -/
def mosProcess (pairs : List (String × Number)) :
    Option Length × Option Length × List (String × Number) :=
  pairs.foldl mosStep (none, none, [])

/-- `reda-spice/src/parse/components.rs` lines 190-195: `builder.build()` —
which fails exactly when `length` or `width` was never set, every other
builder field being set unconditionally by the production — and the
conversion of that failure into `Err::Failure` with context
`"no w/l given"`. -/
def mosFinish (name drain gate sourceN bulk model_name : String)
    (pairs : List (String × Number)) (input : Str) : PRes MosFET :=
  match mosProcess pairs with
  | (some l, some w, params) =>
    .ok input { name := name, drain := drain, gate := gate, source := sourceN,
                bulk := bulk, model_name := model_name, length := l, width := w,
                parameters := params }
  | _ => .fail [(input, "no w/l given")]

/-- `reda-spice/src/parse/components.rs` lines 154-197, `mos_fet`:
name (must begin with `M`/`m`), four nodes, a model name (all promoted to
fatal), then `many0(hws(parameter_pair))` and the builder finish above. -/
def mos_fet (input : Str) : PRes MosFET :=
  ctxP "mosfet" (fun input =>
    (ctxP "name" (hws identifier) input).bind fun i name =>
    if name.head? = some 'M' ∨ name.head? = some 'm' then
      (toFailure (hws node i)).bind fun i2 drain =>
      (toFailure (hws node i2)).bind fun i3 gate =>
      (toFailure (hws node i3)).bind fun i4 srcN =>
      (toFailure (hws node i4)).bind fun i5 bulk =>
      (toFailure (hws identifier i5)).bind fun i6 mn =>
      (many0 (hws parameter_pair) (i6.length + 1) i6).bind fun i7 raw_parameters =>
      mosFinish (String.mk (name.drop 1)) (String.mk drain) (String.mk gate)
        (String.mk srcN) (String.mk bulk) (String.mk mn) raw_parameters i7
    else .err [(i, "should begin with M")]) input

/-- `reda-spice/src/parse/components.rs` lines 11-20, `component`:
`alt` over the six element productions in source order. -/
def component (input : Str) : PRes Component :=
  orElse (pmap Component.R (resistor input)) fun _ =>
  orElse (pmap Component.C (capacitor input)) fun _ =>
  orElse (pmap Component.L (inductor input)) fun _ =>
  orElse (pmap Component.D (diode input)) fun _ =>
  orElse (pmap Component.Q (bjt input)) fun _ =>
  pmap Component.M (mos_fet input)

/-- `reda-spice/src/parse/components.rs` lines 216-232, `model_kind`. -/
def model_kind (input : Str) : PRes ModelKind :=
  pmap
    (fun s =>
      let su := s.map Char.toUpper
      if su = "NPN".data then ModelKind.NPN
      else if su = "D".data then ModelKind.Diode
      else if su = "NMOS".data then ModelKind.NMos
      else ModelKind.PMos)
    (hws (fun i =>
      orElse (tagNoCase "NPN" i) fun _ =>
      orElse (tagNoCase "D" i) fun _ =>
      orElse (tagNoCase "NMOS" i) fun _ =>
      tagNoCase "PMOS" i) input)

/-- `reda-spice/src/parse/components.rs` lines 200-214, `model`:
`.model` keyword (recoverable), then name, kind and a parenthesized
`key=value` list, promoted to fatal. -/
def model (input : Str) : PRes Model :=
  (ctxP "keyword" (hws (tagNoCase ".model")) input).bind fun i _ =>
  (toFailure (hws identifier i)).bind fun i2 name =>
  (toFailure (hws model_kind i2)).bind fun i3 kind =>
  (toFailure (hws (tagNoCase "(") i3)).bind fun i4 _ =>
  (toFailure (many0 parameter_pair (i4.length + 1) i4)).bind fun i5 parameters =>
  (toFailure (hws (tagNoCase ")") i5)).bind fun i6 _ =>
  .ok i6 { name := String.mk name, kind := kind, parameters := hmCollect parameters }

/-! ## SPICE source productions (`rspice/src/parse/source.rs`) -/

/-- `rspice/src/parse/source.rs` lines 60-75, `dc_voltage`: optional
`DC=`/`DC` keyword; the value parse is promoted to fatal only when the
keyword was present. -/
def dc_voltage (input : Str) : PRes Voltage :=
  ctxP "dc" (fun input =>
    (optP (fun i => orElse (hws (tagNoCase "DC=") i) fun _ => hws (tagNoCase "DC") i)
        input).bind fun i optRes =>
    match optRes with
    | some _ => (toFailure (hws voltage_number i)).bind fun i2 v => .ok i2 v
    | none => (hws voltage_number i).bind fun i2 v => .ok i2 v) input

/-- `rspice/src/parse/source.rs` lines 77-92, `dc_current`. -/
def dc_current (input : Str) : PRes Current :=
  ctxP "dc" (fun input =>
    (optP (fun i => orElse (hws (tagNoCase "DC=") i) fun _ => hws (tagNoCase "DC") i)
        input).bind fun i optRes =>
    match optRes with
    | some _ => (toFailure (hws current_number i)).bind fun i2 v => .ok i2 v
    | none => (hws current_number i).bind fun i2 v => .ok i2 v) input

/-- `rspice/src/parse/source.rs` lines 94-113, `ac_voltage`. -/
def ac_voltage (input : Str) : PRes AcVoltage :=
  ctxP "ac voltage" (fun input =>
    (optP (fun i => orElse (hws (tagNoCase "AC=") i) fun _ => hws (tagNoCase "AC") i)
        input).bind fun i optRes =>
    match optRes with
    | some _ =>
      (toFailure (hws voltage_number i)).bind fun i2 m =>
      (toFailure (hws angle_number i2)).bind fun i3 p =>
      .ok i3 { magnitude := m, phase_deg := p }
    | none =>
      (hws voltage_number i).bind fun i2 m =>
      (hws angle_number i2).bind fun i3 p =>
      .ok i3 { magnitude := m, phase_deg := p }) input

/-- `rspice/src/parse/source.rs` lines 115-134, `ac_current`. -/
def ac_current (input : Str) : PRes AcCurrent :=
  ctxP "ac current" (fun input =>
    (optP (fun i => orElse (hws (tagNoCase "AC=") i) fun _ => hws (tagNoCase "AC") i)
        input).bind fun i optRes =>
    match optRes with
    | some _ =>
      (toFailure (hws current_number i)).bind fun i2 m =>
      (toFailure (hws angle_number i2)).bind fun i3 p =>
      .ok i3 { magnitude := m, phase_deg := p }
    | none =>
      (hws current_number i).bind fun i2 m =>
      (hws angle_number i2).bind fun i3 p =>
      .ok i3 { magnitude := m, phase_deg := p }) input

/-- `rspice/src/parse/source.rs` lines 136-161, `sine_voltage`: `SIN`
keyword (recoverable), then a committed parenthesized field list with three
mandatory and three optional fields (defaults 0). -/
def sine_voltage (input : Str) : PRes SineVoltage :=
  ctxP "SIN" (fun input =>
    (hws (tagNoCase "SIN") input).bind fun i _ =>
    (toFailure (hws (tagP "(") i)).bind fun i1 _ =>
    (toFailure (ctxP "vo" (hws voltage_number) i1)).bind fun i2 vo =>
    (toFailure (ctxP "va" (hws voltage_number) i2)).bind fun i3 va =>
    (toFailure (ctxP "freq" (hws frequency_number) i3)).bind fun i4 f =>
    (toFailure (ctxP "td" (optP (hws time_number)) i4)).bind fun i5 delay =>
    (toFailure (ctxP "a" (optP (hws frequency_number)) i5)).bind fun i6 damping =>
    (toFailure (ctxP "phase" (optP (hws number)) i6)).bind fun i7 phase =>
    (toFailure (hws (tagP ")") i7)).bind fun i8 _ =>
    .ok i8 { vo := vo, va := va, freq_hz := f,
             delay := delay.getD ⟨⟨0, 0⟩, .None⟩,
             damping := damping.getD ⟨⟨0, 0⟩, .None⟩,
             phase_deg := phase.getD ⟨⟨0, 0⟩, .None⟩ }) input

/-- The `loop` of `pwl_voltage` (`rspice/src/parse/source.rs`
lines 168-182): one `(time, voltage)` pair per iteration, stopping when an
optional `')'` is consumed; every step is promoted to fatal.  Fuel is the
input length (each iteration consumes at least one character). -/
def pwlLoop : Nat → Str → List (Time × Voltage) → PRes (List (Time × Voltage))
  | 0, input, _ => .fail [(input, "PWL")]
  | fuel + 1, input, points =>
    (toFailure (hws time_number input)).bind fun i t =>
    (toFailure (hws voltage_number i)).bind fun i2 v =>
    (toFailure (optP (hws (tagP ")")) i2)).bind fun i3 e =>
    match e with
    | some _ => .ok i3 (points ++ [(t, v)])
    | none => pwlLoop fuel i3 (points ++ [(t, v)])

/-- `rspice/src/parse/source.rs` lines 163-186, `pwl_voltage`. -/
def pwl_voltage (input : Str) : PRes PwlVoltage :=
  ctxP "PWL" (fun input =>
    (hws (tagNoCase "PWL") input).bind fun i _ =>
    (toFailure (hws (tagP "(") i)).bind fun i1 _ =>
    (pwlLoop (i1.length + 1) i1 []).bind fun i2 points =>
    .ok i2 { points := points }) input

/-- `rspice/src/parse/source.rs` lines 188-215, `pulse_voltage`. -/
def pulse_voltage (input : Str) : PRes PulseVoltage :=
  ctxP "PULSE" (fun input =>
    (hws (tagNoCase "PULSE") input).bind fun i _ =>
    (toFailure (hws (tagP "(") i)).bind fun i1 _ =>
    (toFailure (ctxP "v0" (hws voltage_number) i1)).bind fun i2 v0 =>
    (toFailure (ctxP "v1" (hws voltage_number) i2)).bind fun i3 v1 =>
    (toFailure (ctxP "td" (hws time_number) i3)).bind fun i4 d =>
    (toFailure (ctxP "tr" (hws time_number) i4)).bind fun i5 r =>
    (toFailure (ctxP "tf" (hws time_number) i5)).bind fun i6 f =>
    (toFailure (ctxP "tw" (hws time_number) i6)).bind fun i7 w =>
    (toFailure (ctxP "to" (hws time_number) i7)).bind fun i8 p =>
    (toFailure (hws (tagP ")") i8)).bind fun i9 _ =>
    .ok i9 { v0 := v0, v1 := v1, delay := d, rise := r, fall := f,
             width := w, period := p }) input

/-- `rspice/src/parse/source.rs` lines 41-58, `source_value`: the kind-specific
`alt` over the five value forms. -/
def source_value (input : Str) (kind : SourceKind) : PRes SourceValue :=
  match kind with
  | .Voltage =>
    ctxP "source_value" (fun i =>
      orElse (pmap SourceValue.DcVoltage (dc_voltage i)) fun _ =>
      orElse (pmap SourceValue.AcVoltage (ac_voltage i)) fun _ =>
      orElse (pmap SourceValue.Sin (sine_voltage i)) fun _ =>
      orElse (pmap SourceValue.Pwl (pwl_voltage i)) fun _ =>
      pmap SourceValue.Pulse (pulse_voltage i)) input
  | .Current =>
    ctxP "source_value" (fun i =>
      orElse (pmap SourceValue.DcCurrent (dc_current i)) fun _ =>
      orElse (pmap SourceValue.AcCurrent (ac_current i)) fun _ =>
      orElse (pmap SourceValue.Sin (sine_voltage i)) fun _ =>
      orElse (pmap SourceValue.Pwl (pwl_voltage i)) fun _ =>
      pmap SourceValue.Pulse (pulse_voltage i)) input

/-- `rspice/src/parse/source.rs` lines 10-39, `source`: name (first letter,
upper-cased, selects voltage vs current; anything else is a recoverable
rejection), then node pair and value, promoted to fatal; the stored name is
`name[1..]`. -/
def source (input : Str) : PRes Source :=
  ctxP "source" (fun input =>
    (ctxP "name" (hws identifier) input).bind fun i name =>
    let first : Char := match name.head? with
      | some c => c.toUpper
      | none => ' '
    if first = 'V' ∨ first = 'I' then
      let kind : SourceKind := if first = 'V' then .Voltage else .Current
      (toFailure (ctxP "node_pos" (hws node) i)).bind fun i2 np =>
      (toFailure (ctxP "node_neg" (hws node) i2)).bind fun i3 nn =>
      (toFailure (ctxP "source_value" (hws (fun j => source_value j kind)) i3)).bind
        fun i4 v =>
      .ok i4 { name := String.mk (name.drop 1), node_pos := String.mk np,
               node_neg := String.mk nn, value := v }
    else .err [(i, "Source must begin with V or I")]) input

/-! ## SPICE simulation commands (`rspice/src/parse/simulate.rs`) -/

/-- `rspice/src/parse/simulate.rs` lines 18-33, `dc_command`. -/
def dc_command (input : Str) : PRes DcCommand :=
  ctxP "dc_command" (fun input =>
    (ctxP "keyword" (hws (tagNoCase ".DC")) input).bind fun i _ =>
    (toFailure (ctxP "source_name" (hws identifier) i)).bind fun i2 sn =>
    (toFailure (ctxP "start_value" (hws voltage_number) i2)).bind fun i3 a =>
    (toFailure (ctxP "stop_value" (hws voltage_number) i3)).bind fun i4 b =>
    (toFailure (ctxP "step_value" (hws voltage_number) i4)).bind fun i5 c =>
    .ok i5 { src_name := String.mk sn, start := a, stop := b, step := c }) input

/-- `rspice/src/parse/simulate.rs` lines 37-63, `ac_command`. -/
def ac_command (input : Str) : PRes AcCommand :=
  ctxP "ac_command" (fun input =>
    (ctxP "keyword" (hws (tagNoCase ".AC")) input).bind fun i _ =>
    (toFailure (ctxP "sweep_type" (hws (fun j =>
        orElse (tagNoCase "LIN" j) fun _ =>
        orElse (tagNoCase "DEC" j) fun _ =>
        tagNoCase "OCT" j)) i)).bind fun i2 sw =>
    let sweep : AcSweepType :=
      let su := sw.map Char.toUpper
      if su = "LIN".data then .Lin
      else if su = "DEC".data then .Dec
      else .Oct
    (toFailure (ctxP "points" (hws unsigned_int) i2)).bind fun i3 pts =>
    (toFailure (ctxP "f_start" (hws frequency_number) i3)).bind fun i4 fa =>
    (toFailure (ctxP "f_stop" (hws frequency_number) i4)).bind fun i5 fb =>
    .ok i5 { sweep_type := sweep, points := pts, f_start := fa, f_stop := fb }) input

/-- `rspice/src/parse/simulate.rs` lines 67-91, `tran_command`: `.TRAN`
keyword, two mandatory and two optional times, and an optional trailing
identifier which must read `UIC` (case-insensitively) else the command
fails fatally. -/
def tran_command (input : Str) : PRes TranCommand :=
  ctxP "tran_command" (fun input =>
    (ctxP "keyword" (hws (tagNoCase ".TRAN")) input).bind fun i _ =>
    (toFailure (ctxP "t_step" (hws time_number) i)).bind fun i2 a =>
    (toFailure (ctxP "t_stop" (hws time_number) i2)).bind fun i3 b =>
    (toFailure (ctxP "t_start" (optP (hws time_number)) i3)).bind fun i4 c =>
    (toFailure (ctxP "t_max" (optP (hws time_number)) i4)).bind fun i5 d =>
    (toFailure (ctxP "UIC_flag" (optP (hws identifier)) i5)).bind fun i6 uic =>
    match uic with
    | some u =>
      if u.map Char.toLower = "uic".data then
        .ok i6 { t_step := a, t_stop := b, t_start := c, t_max := d, uic := true }
      else .fail [(i6, "expected UIC or end of line")]
    | none => .ok i6 { t_step := a, t_stop := b, t_start := c, t_max := d, uic := false }) input

/-- `rspice/src/parse/simulate.rs` lines 8-14, `sim_command`. -/
def sim_command (input : Str) : PRes SimCommand :=
  orElse (ctxP "dc_command" (fun i => pmap SimCommand.Dc (dc_command i)) input) fun _ =>
  orElse (ctxP "ac_command" (fun i => pmap SimCommand.Ac (ac_command i)) input) fun _ =>
  ctxP "tran_command" (fun i => pmap SimCommand.Tran (tran_command i)) input

/-! ## SPICE measurement commands (`reda-spice/src/parse/measures.rs`) -/

/-- `reda-spice/src/parse/measures.rs` lines 147-157, `analysis_type`. -/
def analysis_type (input : Str) : PRes AnalysisType :=
  pmap
    (fun s =>
      let su := s.map Char.toUpper
      if su = "TRAN".data then AnalysisType.Tran
      else if su = "AC".data then AnalysisType.Ac
      else AnalysisType.Dc)
    (hws (fun i =>
      orElse (tagNoCase "TRAN" i) fun _ =>
      orElse (tagNoCase "AC" i) fun _ =>
      tagNoCase "DC" i) input)

/-- The suffix sniffing of `output_variable`
(`reda-spice/src/parse/measures.rs` lines 120-132): string-suffix tests in
the fixed order M, DB, P, R, I. -/
def sniffSuffix (var : Str) : Option OutputSuffix :=
  if "M".data.isSuffixOf var then some .Magnitude
  else if "DB".data.isSuffixOf var then some .Decibel
  else if "P".data.isSuffixOf var then some .Phase
  else if "R".data.isSuffixOf var then some .Real
  else if "I".data.isSuffixOf var then some .Imag
  else none

/-- `reda-spice/src/parse/measures.rs` lines 111-145, `output_variable`:
`V`/`I` kind tag, a parenthesised body read with `take_until(")")`, suffix
sniffing, and for the voltage kind a split of the body at `','` with both
parts trimmed. -/
def output_variable (input : Str) : PRes OutputVariable :=
  (hws (fun i => orElse (tagNoCase "V" i) fun _ => tagNoCase "I" i) input).bind
    fun i kind =>
  (hws (fun j =>
    (hws (tagP "(") j).bind fun j1 _ =>
    if j1.contains ')' then
      let var := j1.takeWhile (fun c => c ≠ ')')
      let j2 := j1.dropWhile (fun c => c ≠ ')')
      (tagP ")" j2).bind fun j3 _ => .ok j3 var
    else .err [(j1, "take_until")]) i).bind fun i2 var =>
  let suffix := sniffSuffix var
  if kind.map Char.toLower = "v".data then
    let parts := (var.splitOn ',').map trimBoth
    .ok i2 (OutputVariable.Voltage
      (String.mk ((parts.get? 0).getD []))
      ((parts.get? 1).map String.mk)
      suffix)
  else
    .ok i2 (OutputVariable.Current (String.mk var) suffix)

/-- `reda-spice/src/parse/measures.rs` lines 57-77, `trig_targ_condition`. -/
def trig_targ_condition (input : Str) : PRes TrigTargCondition :=
  (hws output_variable input).bind fun i v =>
  (hws (tagNoCase "VAL=") i).bind fun i2 _ =>
  (hws number i2).bind fun i3 val =>
  (hws (fun j =>
    orElse (pmap (fun _ => EdgeType.Rise) (tagNoCase "RISE" j)) fun _ =>
    pmap (fun _ => EdgeType.Fall) (tagNoCase "FALL" j)) i3).bind fun i4 edge =>
  (hws (tagP "=") i4).bind fun i5 _ =>
  (hws unsigned_int i5).bind fun i6 n =>
  .ok i6 { variable_ := v, value := val, edge := edge, number := n }

/-- `reda-spice/src/parse/measures.rs` lines 79-101, `measure_function`. -/
def measure_function (input : Str) : PRes MeasureFunction :=
  pmap
    (fun s =>
      let su := s.map Char.toUpper
      if su = "AVG".data then MeasureFunction.Avg
      else if su = "RMS".data then MeasureFunction.Rms
      else if su = "MIN".data then MeasureFunction.Min
      else if su = "MAX".data then MeasureFunction.Max
      else if su = "PP".data then MeasureFunction.Pp
      else if su = "DERIV".data then MeasureFunction.Deriv
      else MeasureFunction.Integrate)
    (hws (fun i =>
      orElse (tagNoCase "AVG" i) fun _ =>
      orElse (tagNoCase "RMS" i) fun _ =>
      orElse (tagNoCase "MIN" i) fun _ =>
      orElse (tagNoCase "MAX" i) fun _ =>
      orElse (tagNoCase "PP" i) fun _ =>
      orElse (tagNoCase "DERIV" i) fun _ =>
      tagNoCase "INTEGRATE" i) input)

/-- `reda-spice/src/parse/measures.rs` lines 103-109, `finwhen_condition`. -/
def finwhen_condition (input : Str) : PRes FindWhenCondition :=
  (hws output_variable input).bind fun i v =>
  (hws (tagP "=") i).bind fun i2 _ =>
  (hws number i2).bind fun i3 val =>
  .ok i3 { variable_ := v, value := val }

/-- `reda-spice/src/parse/measures.rs` lines 26-33, `measure_rise`. -/
def measure_rise (input : Str) (name : String) (analysis : AnalysisType) :
    PRes MeasureRise :=
  (ctxP "TRIG keyword" (hws (tagNoCase "TRIG")) input).bind fun i _ =>
  (toFailure (ctxP "trigger_condition" (hws trig_targ_condition) i)).bind fun i2 trig =>
  (toFailure (ctxP "TARG keyword" (hws (tagNoCase "TARG")) i2)).bind fun i3 _ =>
  (toFailure (ctxP "target_condition" (hws trig_targ_condition) i3)).bind fun i4 targ =>
  .ok i4 { name := name, analysis := analysis, trig := trig, targ := targ }

/-- `reda-spice/src/parse/measures.rs` lines 36-43, `measure_basic_stat`. -/
def measure_basic_stat (input : Str) (name : String) (analysis : AnalysisType) :
    PRes MeasureBasicStat :=
  (ctxP "stat_function" (hws measure_function) input).bind fun i stat =>
  (toFailure (ctxP "variable" (hws output_variable) i)).bind fun i2 v =>
  (toFailure (ctxP "FROM value" (fun j =>
      (hws (tagNoCase "FROM=") j).bind fun j1 _ => hws time_number j1) i2)).bind
    fun i3 fromv =>
  (toFailure (ctxP "TO value" (fun j =>
      (hws (tagNoCase "TO=") j).bind fun j1 _ => hws time_number j1) i3)).bind
    fun i4 tov =>
  .ok i4 { name := name, analysis := analysis, stat := stat, variable_ := v,
           from_ := fromv, to_ := tov }

/-- `reda-spice/src/parse/measures.rs` lines 46-53, `measure_find_when`. -/
def measure_find_when (input : Str) (name : String) (analysis : AnalysisType) :
    PRes MeasureFindWhen :=
  (ctxP "FIND keyword" (hws (tagNoCase "FIND")) input).bind fun i _ =>
  (toFailure (ctxP "variable" (hws output_variable) i)).bind fun i2 v =>
  (toFailure (ctxP "WHEN keyword" (hws (tagNoCase "WHEN")) i2)).bind fun i3 _ =>
  (toFailure (ctxP "condition" (hws finwhen_condition) i3)).bind fun i4 c =>
  .ok i4 { name := name, analysis := analysis, variable_ := v, when_ := c }

/-- `reda-spice/src/parse/measures.rs` lines 9-22, `measure_command`:
`.MEAS` keyword (recoverable), analysis type and name promoted to fatal,
then the three sub-forms in an `alt` whose overall result is promoted to
fatal. -/
def measure_command (input : Str) : PRes MeasureCommand :=
  ctxP "measure_command" (fun input =>
    (ctxP "keyword" (hws (tagNoCase ".MEAS")) input).bind fun i _ =>
    (toFailure (ctxP "analysis_type" (hws analysis_type) i)).bind fun i2 analysis =>
    (toFailure (ctxP "measure_name" (hws identifier) i2)).bind fun i3 name =>
    toFailure
      (orElse (ctxP "measure_rise"
          (fun j => pmap MeasureCommand.Rise (measure_rise j (String.mk name) analysis)) i3)
        fun _ =>
      orElse (ctxP "measure_basic_stat"
          (fun j => pmap MeasureCommand.BasicStat (measure_basic_stat j (String.mk name) analysis)) i3)
        fun _ =>
      ctxP "measure_find_when"
        (fun j => pmap MeasureCommand.FindWhen (measure_find_when j (String.mk name) analysis)) i3)) input

/-! ## SPICE subcircuits and instances (`rspice/src/parse/subckt.rs`) -/

/-- `rspice/src/parse/subckt.rs` lines 90-123, `instance` (the name is a
Lean keyword, hence `instanceStmt`): name must begin with `X`/`x`
(recoverable rejection otherwise), then `many0(hws(node))`; an empty
argument list is a fatal "missing subckt name"; the LAST argument is the
subcircuit name, the preceding ones the pins.  The stored name is the FULL
identifier token, with no prefix stripping. -/
def instanceStmt (input : Str) : PRes Instance :=
  ctxP "instance" (fun input =>
    (ctxP "name" (hws identifier) input).bind fun i name =>
    if name.head? = some 'X' ∨ name.head? = some 'x' then
      (ctxP "args" (fun j => many0 (hws node) (j.length + 1) j) i).bind fun i2 args =>
      match args.getLast? with
      | none => .fail [(i2, "missing subckt name")]
      | some lastTok =>
        .ok i2 { name := String.mk name,
                 pins := (args.dropLast).map String.mk,
                 subckt_name := String.mk lastTok }
    else .err [(i, "should begin with X")]) input

/-- `rspice/src/parse/subckt.rs` lines 75-87, `subckt_decl`. -/
def subckt_decl (input : Str) : PRes (String × List String) :=
  ctxP "subckt_decl" (fun input =>
    (ctxP "name" (hws identifier) input).bind fun i name =>
    (ctxP "ports" (fun j => many0 (hws node) (j.length + 1) j) i).bind fun i2 ports =>
    .ok i2 (String.mk name, ports.map String.mk)) input

/-- The body loop of `subckt` (`rspice/src/parse/subckt.rs` lines 18-61):
trim, skip comment lines, stop at a line beginning (case-insensitively)
with `.ends` (consuming through its newline), otherwise try a component
then an instance; a line matching neither is fatal. -/
def subcktLoop : Nat → Str → List Component → List Instance →
    PRes (List Component × List Instance)
  | 0, input, _, _ => .fail [(input, "subckt fuel")]
  | fuel + 1, input, comps, insts =>
    let input := input.dropWhile isRustWS
    match comment input with
    | .ok rest _ => subcktLoop fuel rest comps insts
    | _ =>
      if (input.take 5).map Char.toLower = ".ends".data then
        let rest := input.dropWhile (fun c => c ≠ '\n')
        .ok (rest.drop 1) (comps, insts)
      else
        match hws component input with
        | .ok rest c => subcktLoop fuel rest (comps ++ [c]) insts
        | .err _ =>
          (match hws instanceStmt input with
           | .ok rest ins => subcktLoop fuel rest comps (insts ++ [ins])
           | .err _ => .fail [(input, "unknown line in subckt")]
           | .fail e => .fail e)
        | .fail e => .fail e

/-- `rspice/src/parse/subckt.rs` lines 7-73, `subckt`: `.SUBCKT` keyword
(recoverable), header declaration promoted to fatal, then the body loop. -/
def subckt (input : Str) : PRes Subckt :=
  ctxP "subckt" (fun input =>
    (ctxP "keyword" (hws (tagNoCase ".SUBCKT")) input).bind fun i _ =>
    (toFailure (ctxP "declaration" (hws subckt_decl) i)).bind fun i2 np =>
    (subcktLoop (i2.length + 1) i2 [] []).bind fun i3 ci =>
    .ok i3 { name := np.1, ports := np.2, components := ci.1, instances := ci.2 }) input

/-! ## SPICE document driver (`rspice/src/parse/mod.rs`) -/

inductive ParsedStatement where
  | Component (c : Component)
  | Source (s : Source)
  | SimCommand (s : SimCommand)
  | Measure (m : MeasureCommand)
  | Instance (i : Instance)
  | Subckt (s : Subckt)
  | Model (m : Model)
deriving Repr, DecidableEq

/-- The SPICE document aggregate (`Spice::default()` plus the seven push
targets of `read_spice`). -/
structure Spice where
  components : List Component := []
  sources : List Source := []
  simulation : List SimCommand := []
  measures : List MeasureCommand := []
  instances : List Instance := []
  subckts : List Subckt := []
  model : List Model := []
deriving Repr, DecidableEq

/-- `rspice/src/parse/mod.rs` lines 91-101, `statement`: the top-level
`alt` over the seven statement productions in source order. -/
def statement (input : Str) : PRes ParsedStatement :=
  orElse (pmap ParsedStatement.Component (component input)) fun _ =>
  orElse (pmap ParsedStatement.Source (source input)) fun _ =>
  orElse (pmap ParsedStatement.SimCommand (sim_command input)) fun _ =>
  orElse (pmap ParsedStatement.Measure (measure_command input)) fun _ =>
  orElse (pmap ParsedStatement.Instance (instanceStmt input)) fun _ =>
  orElse (pmap ParsedStatement.Subckt (subckt input)) fun _ =>
  pmap ParsedStatement.Model (model input)

/-- `rspice/src/parse/mod.rs` lines 103-122, `skip_blank_or_comment_lines`. -/
def skip_blank_or_comment_lines : Nat → Str → Str
  | 0, input => input
  | fuel + 1, input =>
    let input := input.dropWhile isRustWS
    if input.isEmpty then []
    else
      match comment input with
      | .ok rest _ => skip_blank_or_comment_lines fuel rest
      | _ =>
        if input.head? = some '\n' then skip_blank_or_comment_lines fuel (input.drop 1)
        else input

/-- `rspice/src/parse/mod.rs` lines 75-79, `get_error_line`: the 1-based
line number of the failing slice, computed by counting newlines in the
original input before the slice's offset (the pointer subtraction on
suffix slices is length arithmetic here). -/
def get_error_line (full err_input : Str) : Nat :=
  ((full.take (full.length - err_input.length)).filter (fun c => c = '\n')).length + 1

/-- `rspice/src/parse/mod.rs` lines 124-126, `preview_line`: the first line
of the remaining input, trimmed. -/
def preview_line (input : Str) : Str := trimBoth (input.takeWhile (fun c => c ≠ '\n'))

/-- Abstraction of `nom::error::convert_error` (library code outside this
repository, used by the fatal-error branch of `read_spice`): some rendering
of the error trace.  No claim depends on the rendered text, only on the
fact that the driver fails with a line-numbered message. -/
def convertError (e : VErrors) : String :=
  String.intercalate ", " (e.map fun p => p.2)

/-- One step of the `while` loop of `read_spice`, appending the parsed
statement to its sequence (`rspice/src/parse/mod.rs` lines 41-49). -/
def spicePush (sp : Spice) : ParsedStatement → Spice
  | .Component c => { sp with components := sp.components ++ [c] }
  | .Source s => { sp with sources := sp.sources ++ [s] }
  | .SimCommand s => { sp with simulation := sp.simulation ++ [s] }
  | .Measure m => { sp with measures := sp.measures ++ [m] }
  | .Instance i => { sp with instances := sp.instances ++ [i] }
  | .Subckt s => { sp with subckts := sp.subckts ++ [s] }
  | .Model m => { sp with model := sp.model ++ [m] }

/-- The `while` loop of `read_spice` (`rspice/src/parse/mod.rs` lines 33-70),
with fuel (each iteration consumes input). -/
def readSpiceGo (full : Str) : Nat → Spice → Str → Except String Spice
  | 0, _, _ => .error "fuel exhausted"
  | fuel + 1, sp, input =>
    if (input.dropWhile isRustWS).isEmpty then .ok sp
    else
      let input := skip_blank_or_comment_lines (input.length + 1) input
      if input.isEmpty then .ok sp
      else
        match statement input with
        | .ok rest stmt => readSpiceGo full fuel (spicePush sp stmt) rest
        | .fail e =>
          let firstSlice := ((e.head?).map Prod.fst).getD input
          .error ("Error at line " ++ toString (get_error_line full firstSlice) ++
            ":\n" ++ convertError e)
        | .err _ =>
          .error ("At line " ++ toString (get_error_line full input) ++
            ": Unknown statement: " ++ String.mk (preview_line input))

/-- `rspice/src/parse/mod.rs` lines 29-73, `read_spice`: the whole parse
either fully succeeds with the document aggregate or fails with a
user-facing message; no partial document is ever returned. -/
def read_spice (full_input : Str) : Except String Spice :=
  readSpiceGo full_input (full_input.length + 1) {} full_input

/-! ## LEF lexical primitives (`rlef/src/io/read/base.rs`) -/

/-- `rlef/src/io/read/base.rs` lines 15-20, `ws`:
`delimited(multispace0, inner, multispace0)` — the LEF skipper treats any
run of space/tab/newline/CR as insignificant. -/
def ws {α : Type} (p : Str → PRes α) : Str → PRes α := fun input =>
  match p (input.dropWhile isRustWS) with
  | .ok rest v => .ok (rest.dropWhile isRustWS) v
  | e => e

/-- Continuation character of a LEF identifier:
`alt((alphanumeric1, tag("_")))` — no dot, unlike SPICE. -/
def isLefIdentCont (c : Char) : Bool := c.isAlphanum || c = '_'

/-- `rlef/src/io/read/base.rs` lines 24-30, `identifier` (LEF): one
letter-or-underscore, then the maximal run of alphanumerics/underscores,
with `ws` built in. -/
def lef_identifier : Str → PRes Str :=
  ws (fun input =>
    match input with
    | c :: rest =>
      if isIdentStart c then
        .ok (rest.dropWhile isLefIdentCont) (c :: rest.takeWhile isLefIdentCont)
      else .err [(input, "identifier")]
    | [] => .err [([], "identifier")])

/-- `rlef/src/io/read/base.rs` lines 34-37, `qstring`:
`ws(delimited(char('"'), is_not("\""), char('"')))` — at least one
character, no escaping, the first closing quote terminates. -/
def lef_qstring : Str → PRes Str :=
  ws (fun input =>
    match input with
    | '"' :: rest =>
      (match rest.takeWhile (fun c => c ≠ '"') with
       | [] => .err [(rest, "is_not")]
       | content =>
         match rest.dropWhile (fun c => c ≠ '"') with
         | '"' :: r2 => .ok r2 content
         | _ => .err [([], "char")])
    | _ => .err [(input, "char")])

/-- `rlef/src/io/read/base.rs` lines 41-48, `unsigned_int` (LEF): the same
digit-run-to-`u32` conversion as the SPICE primitive, with `ws` around it. -/
def lef_unsigned_int : Str → PRes Nat := ws unsigned_int

/-- `rlef/src/io/read/base.rs` lines 52-61, `float` (LEF): the same
recognizer and `f64::from_str` conversion as the SPICE primitive (the two
files share the `decimal` definition verbatim), with `ws` around it and no
error-rewrapping. -/
def lef_float : Str → PRes DecVal :=
  ws (fun input =>
    match floatCore input with
    | .ok rest s =>
      (match rustF64 s with
       | some v => .ok rest v
       | none => .err [(input, "map_res")])
    | .err e => .err e
    | .fail e => .fail e)

/-! ## LEF data model (`reda-lef/src/model/{base,layer}.rs`) -/

inductive LefUseMinSpacing where
  | On
  | Off
deriving Repr, DecidableEq

structure LefUnits where
  time : Option DecVal := none
  capacitance : Option DecVal := none
  resistance : Option DecVal := none
  power : Option DecVal := none
  current : Option DecVal := none
  voltage : Option DecVal := none
  database_microns : Option Nat := none
  frequency : Option DecVal := none
deriving Repr, DecidableEq

inductive LefCutSpacingConstraint where
  | Layer (name : String) (stack : Bool)
  | AdjacentCuts (count : Nat) (within : DecVal) (except_same_pg_net : Bool)
  | ParallelOverlap
  | Area (v : DecVal)
deriving Repr, DecidableEq

structure LefCutSpacing where
  cut_spacing : DecVal
  center_to_center : Bool
  same_net : Bool
  constraint : Option LefCutSpacingConstraint
deriving Repr, DecidableEq

inductive LefEnclosureCondition where
  | Width (min_width : DecVal) (except_extra_cut : Option DecVal)
  | Length (v : DecVal)
deriving Repr, DecidableEq

structure LefEnclosure where
  above : Bool
  overhang1 : DecVal
  overhang2 : DecVal
  condition : Option LefEnclosureCondition
deriving Repr, DecidableEq

structure LefCutLayer where
  name : String
  mask : Option Nat
  width : Option DecVal
  spacing : List LefCutSpacing
  enclosures : List LefEnclosure
deriving Repr, DecidableEq

structure LefImplantSpacing where
  min_spacing : DecVal
  layer : Option String
deriving Repr, DecidableEq

structure LefImplantLayer where
  name : String
  mask : Option Nat
  width : Option DecVal
  spacings : List LefImplantSpacing
  properties : List (String × String)
deriving Repr, DecidableEq

inductive LefRoutingDirection where
  | Horizontal | Vertical | Diag45 | Diag135
deriving Repr, DecidableEq

inductive LefPitch where
  | Uniform (d : DecVal)
  | XY (dx dy : DecVal)
deriving Repr, DecidableEq

structure LefRoutingSpacing where
  min_spacing : DecVal
deriving Repr, DecidableEq

structure LefRoutingLayer where
  name : String
  mask : Option Nat
  direction : LefRoutingDirection
  pitch : LefPitch
  width : DecVal
  area : Option DecVal
  spacing_rules : List LefRoutingSpacing
  max_width : Option DecVal
  min_width : Option DecVal
deriving Repr, DecidableEq

inductive LefSpecialLayerType where
  | MasterSlice | Overlap
deriving Repr, DecidableEq

inductive Lef58Type where
  | NWell | PWell | AboveDieEdge | BelowDieEdge | Diffusion | TrimPoly | TrimMetal | Region
deriving Repr, DecidableEq

structure Lef58TrimmedMetal where
  metal_layer : String
  mask : Option Nat
deriving Repr, DecidableEq

structure LefSpecialLayer where
  name : String
  layer_type : LefSpecialLayerType
  mask : Option Nat
  properties : List (String × String)
  lef58_type : Option Lef58Type
  lef58_trimmed_metal : Option Lef58TrimmedMetal
deriving Repr, DecidableEq

inductive LefLayer where
  | Cut (l : LefCutLayer)
  | Implant (l : LefImplantLayer)
  | Routing (l : LefRoutingLayer)
  | Special (l : LefSpecialLayer)
deriving Repr, DecidableEq

structure LefTechLibrary where
  version : DecVal
  busbitchar : String
  dividechar : String
  units : LefUnits
  manufacturing_grid : Option DecVal
  use_min_spacing : Option LefUseMinSpacing
  layers : List LefLayer
deriving Repr, DecidableEq

/-! ## LEF grammar (`reda-lef/src/io/read/mod.rs`) -/

/-- `reda-lef/src/io/read/mod.rs` lines 188-235, `cut_layer_spacing`:
`SPACING` distance, optional `CENTERTOCENTER` and `SAMENET` flags, an
optional one-of constraint, `;`.  The `ADJACENTCUTS` count is stored
through `count as u8`, i.e. truncated modulo 256. -/
def cut_layer_spacing (input : Str) : PRes LefCutSpacing :=
  (ws (tagP "SPACING") input).bind fun i _ =>
  (ws lef_float i).bind fun i1 spacing =>
  (optP (ws (tagP "CENTERTOCENTER")) i1).bind fun i2 ctc =>
  (optP (ws (tagP "SAMENET")) i2).bind fun i3 sn =>
  (optP (fun j =>
      orElse
        ((ws (tagP "LAYER") j).bind fun j1 _ =>
         (ws lef_identifier j1).bind fun j2 nm =>
         (optP (ws (tagP "STACK")) j2).bind fun j3 st =>
         .ok j3 (LefCutSpacingConstraint.Layer (String.mk nm) st.isSome)) fun _ =>
      orElse
        ((ws (tagP "ADJACENTCUTS") j).bind fun j1 _ =>
         (ws lef_unsigned_int j1).bind fun j2 count =>
         (ws (tagP "WITHIN") j2).bind fun j3 _ =>
         (ws lef_float j3).bind fun j4 within =>
         (optP (ws (tagP "EXCEPTSAMEPGNET")) j4).bind fun j5 ex =>
         .ok j5 (LefCutSpacingConstraint.AdjacentCuts (count % 256) within ex.isSome)) fun _ =>
      orElse
        (pmap (fun _ => LefCutSpacingConstraint.ParallelOverlap)
          (ws (tagP "PARALLELOVERLAP") j)) fun _ =>
      ((ws (tagP "AREA") j).bind fun j1 _ =>
       (ws lef_float j1).bind fun j2 a =>
       .ok j2 (LefCutSpacingConstraint.Area a))) i3).bind fun i4 constraint =>
  (ws (tagP ";") i4).bind fun i5 _ =>
  .ok i5 { cut_spacing := spacing, center_to_center := ctc.isSome,
           same_net := sn.isSome, constraint := constraint }

/-- `reda-lef/src/io/read/mod.rs` lines 243-287, `cut_layer_enclosure`:
`ENCLOSURE`, optional `ABOVE`/`BELOW` (default above), two overhangs, an
optional one-of condition, `;`. -/
def cut_layer_enclosure (input : Str) : PRes LefEnclosure :=
  (ws (tagP "ENCLOSURE") input).bind fun i _ =>
  (optP (fun j => orElse (tagP "ABOVE" j) fun _ => tagP "BELOW" j) i).bind fun i1 ab =>
  let above := match ab with
    | some tok => tok = "ABOVE".data
    | none => true
  (ws lef_float i1).bind fun i2 o1 =>
  (ws lef_float i2).bind fun i3 o2 =>
  (optP (fun j =>
      orElse
        ((ws (tagP "WIDTH") j).bind fun j1 _ =>
         (ws lef_float j1).bind fun j2 mw =>
         (optP (fun h =>
             (ws (tagP "EXCEPTEXTRACUT") h).bind fun h1 _ =>
             (ws lef_float h1).bind fun h2 v => .ok h2 v) j2).bind fun j3 ex =>
         .ok j3 (LefEnclosureCondition.Width mw ex)) fun _ =>
      ((ws (tagP "LENGTH") j).bind fun j1 _ =>
       (ws lef_float j1).bind fun j2 len =>
       .ok j2 (LefEnclosureCondition.Length len))) i3).bind fun i4 cond =>
  (ws (tagP ";") i4).bind fun i5 _ =>
  .ok i5 { above := above, overhang1 := o1, overhang2 := o2, condition := cond }

/-- The accumulated optional/repeated clauses of a CUT layer body. -/
structure CutAcc where
  mask : Option Nat
  spacing : List LefCutSpacing
  width : Option DecVal
  enclosures : List LefEnclosure
deriving Repr, DecidableEq

/-- `reda-lef/src/io/read/mod.rs` lines 133-161: the CUT layer body —
optional `MASK`, repeated `SPACING` clauses, optional `WIDTH`, repeated
`ENCLOSURE` clauses, accumulated into the builder. -/
def cut_layer_body (input : Str) : PRes CutAcc :=
  (optP (fun j =>
      (ws (tagP "MASK") j).bind fun j1 _ =>
      (ws lef_unsigned_int j1).bind fun j2 m =>
      (ws (tagP ";") j2).bind fun j3 _ => .ok j3 m) input).bind fun i mask =>
  (many0 (ws cut_layer_spacing) (i.length + 1) i).bind fun i1 spaces =>
  (optP (fun j =>
      (ws (tagP "WIDTH") j).bind fun j1 _ =>
      (ws lef_float j1).bind fun j2 w =>
      (ws (tagP ";") j2).bind fun j3 _ => .ok j3 w) i1).bind fun i2 width =>
  (many0 (ws cut_layer_enclosure) (i2.length + 1) i2).bind fun i3 encls =>
  .ok i3 { mask := mask, spacing := spaces, width := width, enclosures := encls }

/-- `reda-lef/src/io/read/mod.rs` lines 163-174: the `END <name>` check
closing a CUT layer — the parsed end name must equal the opening layer
name, else the result is unconditionally `Err::Failure` (the error slice is
the end-name token itself, as in the source). -/
def cut_layer_finish (name : String) (acc : CutAcc) (input : Str) : PRes LefCutLayer :=
  (ws (tagP "END") input).bind fun i _ =>
  (ws lef_identifier i).bind fun i2 e =>
  if name = String.mk e then
    .ok i2 { name := name, mask := acc.mask, width := acc.width,
             spacing := acc.spacing, enclosures := acc.enclosures }
  else .fail [(e, "un match end name")]

/-- `reda-lef/src/io/read/mod.rs` lines 132-175, `cut_layer`. -/
def cut_layer (input : Str) (name : String) : PRes LefCutLayer :=
  (cut_layer_body input).bind fun i acc => cut_layer_finish name acc i

/-- `reda-lef/src/io/read/mod.rs` lines 359-376, `implant_layer_spacing`. -/
def implant_layer_spacing (input : Str) : PRes LefImplantSpacing :=
  (ws (tagP "SPACING") input).bind fun i _ =>
  (ws lef_float i).bind fun i1 sp =>
  (optP (fun j =>
      (ws (tagP "LAYER") j).bind fun j1 _ =>
      (ws lef_identifier j1).bind fun j2 nm => .ok j2 nm) i1).bind fun i2 ly =>
  (ws (tagP ";") i2).bind fun i3 _ =>
  .ok i3 { min_spacing := sp, layer := ly.map String.mk }

/-- `reda-lef/src/io/read/mod.rs` lines 347-354, `implant_layer_property`:
note the clause keyword is `SPACING` although the produced pair is a
property (the documentation comment says `PROPERTY`). -/
def implant_layer_property (input : Str) : PRes (String × String) :=
  (ws (tagP "SPACING") input).bind fun i _ =>
  (ws lef_identifier i).bind fun i1 k =>
  (ws lef_identifier i1).bind fun i2 v =>
  (ws (tagP ";") i2).bind fun i3 _ =>
  .ok i3 (String.mk k, String.mk v)

/-- The accumulated clauses of an IMPLANT layer body. -/
structure ImplantAcc where
  mask : Option Nat
  width : Option DecVal
  spacings : List LefImplantSpacing
  properties : List (String × String)
deriving Repr, DecidableEq

/-- `reda-lef/src/io/read/mod.rs` lines 300-328: the IMPLANT layer body. -/
def implant_layer_body (input : Str) : PRes ImplantAcc :=
  (optP (fun j =>
      (ws (tagP "MASK") j).bind fun j1 _ =>
      (ws lef_unsigned_int j1).bind fun j2 m =>
      (ws (tagP ";") j2).bind fun j3 _ => .ok j3 m) input).bind fun i mask =>
  (optP (fun j =>
      (ws (tagP "WIDTH") j).bind fun j1 _ =>
      (ws lef_float j1).bind fun j2 w =>
      (ws (tagP ";") j2).bind fun j3 _ => .ok j3 w) i).bind fun i1 width =>
  (many0 (ws implant_layer_spacing) (i1.length + 1) i1).bind fun i2 spacings =>
  (many0 (ws implant_layer_property) (i2.length + 1) i2).bind fun i3 props =>
  .ok i3 { mask := mask, width := width, spacings := spacings, properties := props }

/-- `reda-lef/src/io/read/mod.rs` lines 330-341: the `END <name>` check of
an IMPLANT layer. -/
def implant_layer_finish (name : String) (acc : ImplantAcc) (input : Str) :
    PRes LefImplantLayer :=
  (ws (tagP "END") input).bind fun i _ =>
  (ws lef_identifier i).bind fun i2 e =>
  if name = String.mk e then
    .ok i2 { name := name, mask := acc.mask, width := acc.width,
             spacings := acc.spacings, properties := acc.properties }
  else .fail [(e, "un match end name")]

/-- `reda-lef/src/io/read/mod.rs` lines 299-342, `implant_layer`. -/
def implant_layer (input : Str) (name : String) : PRes LefImplantLayer :=
  (implant_layer_body input).bind fun i acc => implant_layer_finish name acc i

/-- `reda-lef/src/io/read/mod.rs` lines 477-483, `parse_spacing`: only the
bare `SPACING <float> ;` form of a ROUTING spacing rule is recognized. -/
def parse_spacing (input : Str) : PRes LefRoutingSpacing :=
  (ws (tagP "SPACING") input).bind fun i _ =>
  (ws lef_float i).bind fun i1 sp =>
  (ws (tagP ";") i1).bind fun i2 _ =>
  .ok i2 { min_spacing := sp }

/-- The accumulated clauses of a ROUTING layer body. -/
structure RoutingAcc where
  mask : Option Nat
  direction : LefRoutingDirection
  pitch : LefPitch
  width : DecVal
  area : Option DecVal
  spacing_rules : List LefRoutingSpacing
  max_width : Option DecVal
  min_width : Option DecVal
deriving Repr, DecidableEq

/-- `reda-lef/src/io/read/mod.rs` lines 405-461: the ROUTING layer body —
optional `MASK`, mandatory `DIRECTION`, `PITCH` (one or two floats) and
`WIDTH`, optional `AREA`, repeated `SPACING`, optional `MAXWIDTH` and
`MINWIDTH`. -/
def routing_layer_body (input : Str) : PRes RoutingAcc :=
  (optP (fun j =>
      (ws (tagP "MASK") j).bind fun j1 _ =>
      (ws lef_unsigned_int j1).bind fun j2 m =>
      (ws (tagP ";") j2).bind fun j3 _ => .ok j3 m) input).bind fun i mask =>
  (ws (tagP "DIRECTION") i).bind fun i1 _ =>
  (orElse (pmap (fun _ => LefRoutingDirection.Horizontal) (ws (tagP "HORIZONTAL") i1)) fun _ =>
   orElse (pmap (fun _ => LefRoutingDirection.Vertical) (ws (tagP "VERTICAL") i1)) fun _ =>
   orElse (pmap (fun _ => LefRoutingDirection.Diag45) (ws (tagP "DIAG45") i1)) fun _ =>
   pmap (fun _ => LefRoutingDirection.Diag135) (ws (tagP "DIAG135") i1)).bind fun i2 dir =>
  (ws (tagP ";") i2).bind fun i3 _ =>
  (ws (tagP "PITCH") i3).bind fun i4 _ =>
  (ws lef_float i4).bind fun i5 p1 =>
  (optP (ws lef_float) i5).bind fun i6 p2 =>
  let pitch := match p2 with
    | some q => LefPitch.XY p1 q
    | none => LefPitch.Uniform p1
  (ws (tagP ";") i6).bind fun i7 _ =>
  (ws (tagP "WIDTH") i7).bind fun i8 _ =>
  (ws lef_float i8).bind fun i9 w =>
  (ws (tagP ";") i9).bind fun i10 _ =>
  (optP (fun j =>
      (ws (tagP "AREA") j).bind fun j1 _ =>
      (ws lef_float j1).bind fun j2 a =>
      (ws (tagP ";") j2).bind fun j3 _ => .ok j3 a) i10).bind fun i11 area =>
  (many0 (ws parse_spacing) (i11.length + 1) i11).bind fun i12 spacings =>
  (optP (fun j =>
      (ws (tagP "MAXWIDTH") j).bind fun j1 _ =>
      (ws lef_float j1).bind fun j2 a =>
      (ws (tagP ";") j2).bind fun j3 _ => .ok j3 a) i12).bind fun i13 maxw =>
  (optP (fun j =>
      (ws (tagP "MINWIDTH") j).bind fun j1 _ =>
      (ws lef_float j1).bind fun j2 a =>
      (ws (tagP ";") j2).bind fun j3 _ => .ok j3 a) i13).bind fun i14 minw =>
  .ok i14 { mask := mask, direction := dir, pitch := pitch, width := w, area := area,
            spacing_rules := spacings, max_width := maxw, min_width := minw }

/-- `reda-lef/src/io/read/mod.rs` lines 463-474: the `END <name>` check of
a ROUTING layer. -/
def routing_layer_finish (name : String) (acc : RoutingAcc) (input : Str) :
    PRes LefRoutingLayer :=
  (ws (tagP "END") input).bind fun i _ =>
  (ws lef_identifier i).bind fun i2 e =>
  if name = String.mk e then
    .ok i2 { name := name, mask := acc.mask, direction := acc.direction,
             pitch := acc.pitch, width := acc.width, area := acc.area,
             spacing_rules := acc.spacing_rules, max_width := acc.max_width,
             min_width := acc.min_width }
  else .fail [(e, "un match end name")]

/-- `reda-lef/src/io/read/mod.rs` lines 404-475, `routing_layer`. -/
def routing_layer (input : Str) (name : String) : PRes LefRoutingLayer :=
  (routing_layer_body input).bind fun i acc => routing_layer_finish name acc i

/-- `reda-lef/src/io/read/mod.rs` lines 555-561,
`special_layer_trimmedmetal_value`. -/
def special_layer_trimmedmetal_value (input : Str) : PRes Lef58TrimmedMetal :=
  (ws (tagP "TRIMMEDMETAL") input).bind fun i _ =>
  (ws lef_identifier i).bind fun i1 ml =>
  (optP (fun j =>
      (ws (tagP "MASK") j).bind fun j1 _ =>
      (ws lef_unsigned_int j1).bind fun j2 m => .ok j2 m) i1).bind fun i2 mask =>
  .ok i2 { metal_layer := String.mk ml, mask := mask }

/-- The `LEF58_TYPE` quoted-payload match
(`reda-lef/src/io/read/mod.rs` lines 518-529): the value is upper-cased and
compared with eight literal strings; anything else is silently skipped. -/
def lef58TypeOf (valUpper : String) : Option Lef58Type :=
  if valUpper = "TYPE NWELL" then some .NWell
  else if valUpper = "TYPE PWELL" then some .PWell
  else if valUpper = "TYPE ABOVEDIEEDGE" then some .AboveDieEdge
  else if valUpper = "TYPE BELOWDIEEDGE" then some .BelowDieEdge
  else if valUpper = "TYPE DIFFUSION" then some .Diffusion
  else if valUpper = "TYPE TRIMPOLY" then some .TrimPoly
  else if valUpper = "TYPE TRIMMETAL" then some .TrimMetal
  else if valUpper = "TYPE REGION" then some .Region
  else none

/-- The property post-processing loop of `special_layer`
(`reda-lef/src/io/read/mod.rs` lines 515-539).  `LEF58_TYPE` payloads set
the typed field (non-matching payloads are skipped), `LEF58_TRIMMEDMETAL`
payloads are re-parsed — the source calls `.unwrap()` on that re-parse, so
a failing payload panics; the model returns `none` for the panic, which
`special_layer` renders as a fatal outcome.  All other keys accumulate. -/
def specialProps : List (Str × Str) →
    Option (List (String × String) × Option Lef58Type × Option Lef58TrimmedMetal) :=
  fun props =>
    props.foldl
      (fun acc kv =>
        match acc with
        | none => none
        | some (normal, ty, tm) =>
          if String.mk kv.1 = "LEF58_TYPE" then
            match lef58TypeOf (String.mk (kv.2.map Char.toUpper)) with
            | some t => some (normal, some t, tm)
            | none => some (normal, ty, tm)
          else if String.mk kv.1 = "LEF58_TRIMMEDMETAL" then
            match special_layer_trimmedmetal_value kv.2 with
            | .ok _ v => some (normal, ty, some v)
            | _ => none
          else some (normal ++ [(String.mk kv.1, String.mk kv.2)], ty, tm))
      (some ([], none, none))

/-- The accumulated clauses of a MASTERSLICE/OVERLAP layer body. -/
structure SpecialAcc where
  mask : Option Nat
  properties : List (String × String)
  lef58_type : Option Lef58Type
  lef58_trimmed_metal : Option Lef58TrimmedMetal
deriving Repr, DecidableEq

/-- `reda-lef/src/io/read/mod.rs` lines 499-539: the MASTERSLICE/OVERLAP
layer body — optional `MASK`, then repeated `PROPERTY <key> <qstring> ;`
clauses post-processed by `specialProps`. -/
def special_layer_body (input : Str) : PRes SpecialAcc :=
  (optP (fun j =>
      (ws (tagP "MASK") j).bind fun j1 _ =>
      (ws lef_unsigned_int j1).bind fun j2 m =>
      (ws (tagP ";") j2).bind fun j3 _ => .ok j3 m) input).bind fun i mask =>
  (many0 (fun j =>
      (ws (tagP "PROPERTY") j).bind fun j1 _ =>
      (ws lef_identifier j1).bind fun j2 k =>
      (ws lef_qstring j2).bind fun j3 v =>
      (ws (tagP ";") j3).bind fun j4 _ => .ok j4 (k, v)) (i.length + 1) i).bind
    fun i1 props =>
  match specialProps props with
  | some (normal, ty, tm) =>
    .ok i1 { mask := mask, properties := normal, lef58_type := ty,
             lef58_trimmed_metal := tm }
  | none => .fail [(i1, "panic: LEF58_TRIMMEDMETAL unwrap")]

/-- `reda-lef/src/io/read/mod.rs` lines 541-552: the `END <name>` check of
a MASTERSLICE/OVERLAP layer. -/
def special_layer_finish (name : String) (tp : LefSpecialLayerType) (acc : SpecialAcc)
    (input : Str) : PRes LefSpecialLayer :=
  (ws (tagP "END") input).bind fun i _ =>
  (ws lef_identifier i).bind fun i2 e =>
  if name = String.mk e then
    .ok i2 { name := name, layer_type := tp, mask := acc.mask,
             properties := acc.properties, lef58_type := acc.lef58_type,
             lef58_trimmed_metal := acc.lef58_trimmed_metal }
  else .fail [(e, "un match end name")]

/-- `reda-lef/src/io/read/mod.rs` lines 498-553, `special_layer`. -/
def special_layer (input : Str) (name : String) (tp : LefSpecialLayerType) :
    PRes LefSpecialLayer :=
  (special_layer_body input).bind fun i acc => special_layer_finish name tp acc i

/-- `reda-lef/src/io/read/mod.rs` lines 81-110, `layer`: `LAYER <name> TYPE
<type> ;` then a case-sensitive dispatch on the type token; an unrecognized
type token is `Err::Failure`. -/
def layer (input : Str) : PRes LefLayer :=
  (ws (tagP "LAYER") input).bind fun i _ =>
  (ws lef_identifier i).bind fun i1 layer_name =>
  (ws (tagP "TYPE") i1).bind fun i2 _ =>
  (ws lef_identifier i2).bind fun i3 layer_type =>
  (ws (tagP ";") i3).bind fun i4 _ =>
  if layer_type = "CUT".data then
    pmap LefLayer.Cut (cut_layer i4 (String.mk layer_name))
  else if layer_type = "IMPLANT".data then
    pmap LefLayer.Implant (implant_layer i4 (String.mk layer_name))
  else if layer_type = "ROUTING".data then
    pmap LefLayer.Routing (routing_layer i4 (String.mk layer_name))
  else if layer_type = "MASTERSLICE".data then
    pmap LefLayer.Special (special_layer i4 (String.mk layer_name) .MasterSlice)
  else if layer_type = "OVERLAP".data then
    pmap LefLayer.Special (special_layer i4 (String.mk layer_name) .Overlap)
  else .fail [(layer_type, "expected layer type")]

/-- `reda-lef/src/io/read/mod.rs` lines 573-615, `units`: only the
`DATABASE MICRONS <int> ;` clause is live (the full UNITS grammar is
commented out in the source), closed by `END UNITS`. -/
def units (input : Str) : PRes LefUnits :=
  (ws (tagP "UNITS") input).bind fun i _ =>
  (ws (tagP "DATABASE") i).bind fun i1 _ =>
  (ws (tagP "MICRONS") i1).bind fun i2 _ =>
  (ws unsigned_int i2).bind fun i3 v =>
  (ws (tagP ";") i3).bind fun i4 _ =>
  (ws (tagP "END") i4).bind fun i5 _ =>
  (ws (tagP "UNITS") i5).bind fun i6 _ =>
  .ok i6 { database_microns := some v }

/-- `reda-lef/src/io/read/mod.rs` lines 626-634, `busbit_chars`: one of the
three quoted delimiter pairs. -/
def busbit_chars (input : Str) : PRes Str :=
  (ws (tagP "BUSBITCHARS") input).bind fun i _ =>
  (orElse (ws (tagP "\"[]\"") i) fun _ =>
   orElse (ws (tagP "\"\x7b\x7d\"") i) fun _ =>
   ws (tagP "\"<>\"") i).bind fun i1 v =>
  (ws (tagP ";") i1).bind fun i2 _ =>
  .ok i2 v

/-- `reda-lef/src/io/read/mod.rs` lines 644-655, `divider_char`. -/
def divider_char (input : Str) : PRes Str :=
  (ws (tagP "DIVIDERCHAR") input).bind fun i _ =>
  (orElse (ws (tagP "\"/\"") i) fun _ =>
   orElse (ws (tagP "\"\\\"") i) fun _ =>
   orElse (ws (tagP "\"%\"") i) fun _ =>
   ws (tagP "\"$\"") i).bind fun i1 v =>
  (ws (tagP ";") i1).bind fun i2 _ =>
  .ok i2 v

/-- `reda-lef/src/io/read/mod.rs` lines 659-666, `version`. -/
def version (input : Str) : PRes DecVal :=
  (ws (tagP "VERSION") input).bind fun i _ =>
  (lef_float i).bind fun i1 v =>
  (ws (tagP ";") i1).bind fun i2 _ =>
  .ok i2 v

/-- `reda-lef/src/io/read/mod.rs` lines 62-73: the `USEMINSPACING`
fragment of `tech_library` — an optional
`USEMINSPACING <identifier> ;` tuple; when present, both the `"ON"` and the
`"OFF"` token set the field to `LefUseMinSpacing::On` (the `"OFF"` arm of
the source `match` also produces `On`), and any other token is
`Err::Failure`. -/
def use_min_spacing_triple (j : Str) : PRes Str :=
  (ws (tagP "USEMINSPACING") j).bind fun j1 _ =>
  (ws lef_identifier j1).bind fun j2 tok =>
  (ws (tagP ";") j2).bind fun j3 _ => .ok j3 tok

/-- `reda-lef/src/io/read/mod.rs` lines 63-73: the `match` on the
`USEMINSPACING` value token. -/
def use_min_spacing_stmt (input : Str) : PRes (Option LefUseMinSpacing) :=
  (optP use_min_spacing_triple input).bind fun i opt_ums =>
  match opt_ums with
  | some tok =>
    if String.mk tok = "ON" then .ok i (some LefUseMinSpacing.On)
    else if String.mk tok = "OFF" then .ok i (some LefUseMinSpacing.On)
    else .fail [(tok, "expected USEMINSPACING ON or OFF")]
  | none => .ok i none

/-- `reda-lef/src/io/read/mod.rs` lines 44-79, `tech_library`: header
(version, busbit chars, divider char, units), optional
`MANUFACTURINGGRID`, the `USEMINSPACING` fragment above, then repeated
layer blocks. -/
def tech_library (input : Str) : PRes LefTechLibrary :=
  (version input).bind fun i ver =>
  (busbit_chars i).bind fun i1 bb =>
  (divider_char i1).bind fun i2 dv =>
  (units i2).bind fun i3 us =>
  (optP (fun j =>
      (ws (tagP "MANUFACTURINGGRID") j).bind fun j1 _ =>
      (ws lef_float j1).bind fun j2 g =>
      (ws (tagP ";") j2).bind fun j3 _ => .ok j3 g) i3).bind fun i4 grid =>
  (use_min_spacing_stmt i4).bind fun i5 ums =>
  (many0 (ws layer) (i5.length + 1) i5).bind fun i6 layers =>
  .ok i6 { version := ver, busbitchar := String.mk bb, dividechar := String.mk dv,
           units := us, manufacturing_grid := grid, use_min_spacing := ums,
           layers := layers }

/-- The stored (prefix-stripped) designator of a parsed component, across
the six element kinds. -/
def componentName : Component → String
  | .R r => r.name
  | .C c => c.name
  | .L l => l.name
  | .D d => d.name
  | .Q q => q.name
  | .M m => m.name

/-- Is a parameter key one of the special-cased `l`/`w` keys
(case-insensitively)? -/
def mosIsLW (kv : String × Number) : Bool :=
  kv.1.data.map Char.toLower = "l".data || kv.1.data.map Char.toLower = "w".data

/-! ## Generic lemmas about the combinator plumbing -/

theorem ctxP_ok {α : Type} {lbl : String} {p : Str → PRes α} {i r : Str} {v : α} :
    ctxP lbl p i = .ok r v ↔ p i = .ok r v := by
  unfold ctxP
  cases p i <;> simp

theorem hws_ok {α : Type} {p : Str → PRes α} {i r : Str} {v : α}
    (h : hws p i = .ok r v) : ∃ r0, p (smart_space0 i) = .ok r0 v := by
  unfold hws at h
  rcases hp : p (smart_space0 i) with ⟨r0, v0⟩ | e | e <;> rw [hp] at h <;> simp at h
  exact ⟨r0, by rw [h.2]⟩

theorem identifier_ok_ne_nil {i r tok : Str} (h : identifier i = .ok r tok) :
    tok ≠ [] := by
  unfold identifier at h
  split at h
  · split at h
    · injection h with h1 h2
      rw [← h2]
      simp
    · exact absurd h (by simp)
  · exact absurd h (by simp)

theorem pmap_ok {α β : Type} {f : α → β} {x : PRes α} {r : Str} {v : β}
    (h : pmap f x = .ok r v) : ∃ v0, x = .ok r v0 ∧ v = f v0 := by
  cases x with
  | ok r0 v0 =>
    simp only [pmap] at h
    injection h with h1 h2
    exact ⟨v0, by rw [h1], h2.symm⟩
  | err e => exact absurd h (by simp [pmap])
  | fail e => exact absurd h (by simp [pmap])

theorem orElse_ok {α : Type} {a : PRes α} {q : Unit → PRes α} {r : Str} {v : α}
    (h : orElse a q = .ok r v) : a = .ok r v ∨ ((∃ e, a = .err e) ∧ q () = .ok r v) := by
  cases a with
  | ok r0 v0 => exact Or.inl h
  | err e => exact Or.inr ⟨⟨e, rfl⟩, h⟩
  | fail e => exact absurd h (by simp [orElse])

theorem drop_one_nil_iff {tok : Str} (hne : tok ≠ []) :
    (tok.drop 1 = [] ↔ tok.length = 1) := by
  cases tok with
  | nil => exact absurd rfl hne
  | cons c rest => cases rest <;> simp

/-! ## Name-shape lemmas for the component, source and instance
productions: every successful parse stores THE identifier token recognized
by `hws identifier` at the start of the production's input, with its first
character stripped (components, sources) or kept whole (instances).  The
existential token is pinned down by the `hws identifier input = .ok i0 tok`
conjunct (`hws identifier` is a function, so `tok` is unique). -/

theorem resistor_name {input rest : Str} {r : Resistor}
    (h : resistor input = .ok rest r) :
    ∃ i0 tok : Str, hws identifier input = .ok i0 tok ∧ tok ≠ [] ∧
      (tok.head? = some 'R' ∨ tok.head? = some 'r') ∧
      r.name = String.mk (tok.drop 1) := by
  unfold resistor at h
  rw [ctxP_ok] at h
  simp only [PRes.bind] at h
  split at h
  case h_2 => exact absurd h (by simp)
  case h_3 => exact absurd h (by simp)
  case h_1 i1 tok heq1 =>
    split at h
    case isFalse => exact absurd h (by simp)
    case isTrue hc =>
      split at h
      case h_2 => exact absurd h (by simp)
      case h_3 => exact absurd h (by simp)
      case h_1 i2 np heq2 =>
        split at h
        case h_2 => exact absurd h (by simp)
        case h_3 => exact absurd h (by simp)
        case h_1 i3 nn heq3 =>
          split at h
          case h_2 => exact absurd h (by simp)
          case h_3 => exact absurd h (by simp)
          case h_1 i4 res heq4 =>
            refine ⟨i1, tok, ctxP_ok.mp heq1, ?_, hc, ?_⟩
            · obtain ⟨r0, hid⟩ := hws_ok (ctxP_ok.mp heq1)
              exact identifier_ok_ne_nil hid
            · injection h with hrest hval
              rw [← hval]

theorem capacitor_name {input rest : Str} {c : Capacitor}
    (h : capacitor input = .ok rest c) :
    ∃ i0 tok : Str, hws identifier input = .ok i0 tok ∧ tok ≠ [] ∧
      c.name = String.mk (tok.drop 1) := by
  unfold capacitor at h
  rw [ctxP_ok] at h
  simp only [PRes.bind] at h
  split at h
  case h_2 => exact absurd h (by simp)
  case h_3 => exact absurd h (by simp)
  case h_1 i1 tok heq1 =>
    split at h
    case isFalse => exact absurd h (by simp)
    case isTrue hc =>
      split at h
      case h_2 => exact absurd h (by simp)
      case h_3 => exact absurd h (by simp)
      case h_1 i2 np heq2 =>
        split at h
        case h_2 => exact absurd h (by simp)
        case h_3 => exact absurd h (by simp)
        case h_1 i3 nn heq3 =>
          split at h
          case h_2 => exact absurd h (by simp)
          case h_3 => exact absurd h (by simp)
          case h_1 i4 res heq4 =>
            refine ⟨i1, tok, ctxP_ok.mp heq1, ?_, ?_⟩
            · obtain ⟨r0, hid⟩ := hws_ok (ctxP_ok.mp heq1)
              exact identifier_ok_ne_nil hid
            · injection h with hrest hval
              rw [← hval]

theorem inductor_name {input rest : Str} {l : Inductor}
    (h : inductor input = .ok rest l) :
    ∃ i0 tok : Str, hws identifier input = .ok i0 tok ∧ tok ≠ [] ∧
      l.name = String.mk (tok.drop 1) := by
  unfold inductor at h
  rw [ctxP_ok] at h
  simp only [PRes.bind] at h
  split at h
  case h_2 => exact absurd h (by simp)
  case h_3 => exact absurd h (by simp)
  case h_1 i1 tok heq1 =>
    split at h
    case isFalse => exact absurd h (by simp)
    case isTrue hc =>
      split at h
      case h_2 => exact absurd h (by simp)
      case h_3 => exact absurd h (by simp)
      case h_1 i2 np heq2 =>
        split at h
        case h_2 => exact absurd h (by simp)
        case h_3 => exact absurd h (by simp)
        case h_1 i3 nn heq3 =>
          split at h
          case h_2 => exact absurd h (by simp)
          case h_3 => exact absurd h (by simp)
          case h_1 i4 res heq4 =>
            refine ⟨i1, tok, ctxP_ok.mp heq1, ?_, ?_⟩
            · obtain ⟨r0, hid⟩ := hws_ok (ctxP_ok.mp heq1)
              exact identifier_ok_ne_nil hid
            · injection h with hrest hval
              rw [← hval]

theorem diode_name {input rest : Str} {d : Diode}
    (h : diode input = .ok rest d) :
    ∃ i0 tok : Str, hws identifier input = .ok i0 tok ∧ tok ≠ [] ∧
      d.name = String.mk (tok.drop 1) := by
  unfold diode at h
  rw [ctxP_ok] at h
  simp only [PRes.bind] at h
  split at h
  case h_2 => exact absurd h (by simp)
  case h_3 => exact absurd h (by simp)
  case h_1 i1 tok heq1 =>
    split at h
    case isFalse => exact absurd h (by simp)
    case isTrue hc =>
      split at h
      case h_2 => exact absurd h (by simp)
      case h_3 => exact absurd h (by simp)
      case h_1 i2 np heq2 =>
        split at h
        case h_2 => exact absurd h (by simp)
        case h_3 => exact absurd h (by simp)
        case h_1 i3 nn heq3 =>
          split at h
          case h_2 => exact absurd h (by simp)
          case h_3 => exact absurd h (by simp)
          case h_1 i4 res heq4 =>
            refine ⟨i1, tok, ctxP_ok.mp heq1, ?_, ?_⟩
            · obtain ⟨r0, hid⟩ := hws_ok (ctxP_ok.mp heq1)
              exact identifier_ok_ne_nil hid
            · injection h with hrest hval
              rw [← hval]

theorem bjt_name {input rest : Str} {q : BJT}
    (h : bjt input = .ok rest q) :
    ∃ i0 tok : Str, hws identifier input = .ok i0 tok ∧ tok ≠ [] ∧
      q.name = String.mk (tok.drop 1) := by
  unfold bjt at h
  rw [ctxP_ok] at h
  simp only [PRes.bind] at h
  split at h
  case h_2 => exact absurd h (by simp)
  case h_3 => exact absurd h (by simp)
  case h_1 i1 tok heq1 =>
    split at h
    case isFalse => exact absurd h (by simp)
    case isTrue hc =>
      split at h
      case h_2 => exact absurd h (by simp)
      case h_3 => exact absurd h (by simp)
      case h_1 i2 cc heq2 =>
        split at h
        case h_2 => exact absurd h (by simp)
        case h_3 => exact absurd h (by simp)
        case h_1 i3 bb heq3 =>
          split at h
          case h_2 => exact absurd h (by simp)
          case h_3 => exact absurd h (by simp)
          case h_1 i4 ee heq4 =>
            split at h
            case h_2 => exact absurd h (by simp)
            case h_3 => exact absurd h (by simp)
            case h_1 i5 mn heq5 =>
              refine ⟨i1, tok, ctxP_ok.mp heq1, ?_, ?_⟩
              · obtain ⟨r0, hid⟩ := hws_ok (ctxP_ok.mp heq1)
                exact identifier_ok_ne_nil hid
              · injection h with hrest hval
                rw [← hval]

theorem mosFinish_ok_name {n d g s b mn : String} {pairs : List (String × Number)}
    {input rest : Str} {m : MosFET}
    (h : mosFinish n d g s b mn pairs input = .ok rest m) : m.name = n := by
  unfold mosFinish at h
  split at h
  · injection h with h1 h2
    rw [← h2]
  · exact absurd h (by simp)

theorem mos_fet_name {input rest : Str} {m : MosFET}
    (h : mos_fet input = .ok rest m) :
    ∃ i0 tok : Str, hws identifier input = .ok i0 tok ∧ tok ≠ [] ∧
      m.name = String.mk (tok.drop 1) := by
  unfold mos_fet at h
  rw [ctxP_ok] at h
  simp only [PRes.bind] at h
  split at h
  case h_2 => exact absurd h (by simp)
  case h_3 => exact absurd h (by simp)
  case h_1 i1 tok heq1 =>
    split at h
    case isFalse => exact absurd h (by simp)
    case isTrue hc =>
      split at h
      case h_2 => exact absurd h (by simp)
      case h_3 => exact absurd h (by simp)
      case h_1 i2 drain heq2 =>
        split at h
        case h_2 => exact absurd h (by simp)
        case h_3 => exact absurd h (by simp)
        case h_1 i3 gate heq3 =>
          split at h
          case h_2 => exact absurd h (by simp)
          case h_3 => exact absurd h (by simp)
          case h_1 i4 srcN heq4 =>
            split at h
            case h_2 => exact absurd h (by simp)
            case h_3 => exact absurd h (by simp)
            case h_1 i5 bulk heq5 =>
              split at h
              case h_2 => exact absurd h (by simp)
              case h_3 => exact absurd h (by simp)
              case h_1 i6 mn heq6 =>
                split at h
                case h_2 => exact absurd h (by simp)
                case h_3 => exact absurd h (by simp)
                case h_1 i7 raw heq7 =>
                  refine ⟨i1, tok, ctxP_ok.mp heq1, ?_, ?_⟩
                  · obtain ⟨r0, hid⟩ := hws_ok (ctxP_ok.mp heq1)
                    exact identifier_ok_ne_nil hid
                  · exact mosFinish_ok_name h

theorem instanceStmt_name {input rest : Str} {inst : Instance}
    (h : instanceStmt input = .ok rest inst) :
    ∃ tok : Str, tok ≠ [] ∧ (tok.head? = some 'X' ∨ tok.head? = some 'x') ∧
      inst.name = String.mk tok := by
  unfold instanceStmt at h
  rw [ctxP_ok] at h
  simp only [PRes.bind] at h
  split at h
  case h_2 => exact absurd h (by simp)
  case h_3 => exact absurd h (by simp)
  case h_1 i1 tok heq1 =>
    split at h
    case isFalse => exact absurd h (by simp)
    case isTrue hc =>
      split at h
      case h_2 => exact absurd h (by simp)
      case h_3 => exact absurd h (by simp)
      case h_1 i2 args heq2 =>
        split at h
        case h_1 => exact absurd h (by simp)
        case h_2 lastTok heqLast =>
          refine ⟨tok, ?_, hc, ?_⟩
          · obtain ⟨r0, hid⟩ := hws_ok (ctxP_ok.mp heq1)
            exact identifier_ok_ne_nil hid
          · injection h with hrest hval
            rw [← hval]

theorem component_name_shape {input rest : Str} {c : Component}
    (h : component input = .ok rest c) :
    ∃ i0 tok : Str, hws identifier input = .ok i0 tok ∧ tok ≠ [] ∧
      componentName c = String.mk (tok.drop 1) := by
  unfold component at h
  rcases orElse_ok h with h1 | ⟨_, h1⟩
  · obtain ⟨v0, hv, hc⟩ := pmap_ok h1
    obtain ⟨i0, tok, hp, hne, _, hn⟩ := resistor_name hv
    exact ⟨i0, tok, hp, hne, by rw [hc]; exact hn⟩
  rcases orElse_ok h1 with h2 | ⟨_, h2⟩
  · obtain ⟨v0, hv, hc⟩ := pmap_ok h2
    obtain ⟨i0, tok, hp, hne, hn⟩ := capacitor_name hv
    exact ⟨i0, tok, hp, hne, by rw [hc]; exact hn⟩
  rcases orElse_ok h2 with h3 | ⟨_, h3⟩
  · obtain ⟨v0, hv, hc⟩ := pmap_ok h3
    obtain ⟨i0, tok, hp, hne, hn⟩ := inductor_name hv
    exact ⟨i0, tok, hp, hne, by rw [hc]; exact hn⟩
  rcases orElse_ok h3 with h4 | ⟨_, h4⟩
  · obtain ⟨v0, hv, hc⟩ := pmap_ok h4
    obtain ⟨i0, tok, hp, hne, hn⟩ := diode_name hv
    exact ⟨i0, tok, hp, hne, by rw [hc]; exact hn⟩
  rcases orElse_ok h4 with h5 | ⟨_, h5⟩
  · obtain ⟨v0, hv, hc⟩ := pmap_ok h5
    obtain ⟨i0, tok, hp, hne, hn⟩ := bjt_name hv
    exact ⟨i0, tok, hp, hne, by rw [hc]; exact hn⟩
  · obtain ⟨v0, hv, hc⟩ := pmap_ok h5
    obtain ⟨i0, tok, hp, hne, hn⟩ := mos_fet_name hv
    exact ⟨i0, tok, hp, hne, by rw [hc]; exact hn⟩

/-! ## Lemmas for the LEF `END <name>` checks -/

theorem cut_finish_ok_name {name : String} {acc : CutAcc} {input rest : Str}
    {ly : LefCutLayer} (h : cut_layer_finish name acc input = .ok rest ly) :
    ly.name = name := by
  unfold cut_layer_finish at h
  simp only [PRes.bind] at h
  split at h
  case h_2 => exact absurd h (by simp)
  case h_3 => exact absurd h (by simp)
  case h_1 i1 v1 heq1 =>
    split at h
    case h_2 => exact absurd h (by simp)
    case h_3 => exact absurd h (by simp)
    case h_1 i2 e heq2 =>
      split at h
      · injection h with h1 h2
        rw [← h2]
      · exact absurd h (by simp)

theorem cut_finish_mismatch {name : String} {acc : CutAcc} {input i1 i2 v1 e : Str}
    (h1 : ws (tagP "END") input = .ok i1 v1) (h2 : ws lef_identifier i1 = .ok i2 e)
    (hne : name ≠ String.mk e) :
    cut_layer_finish name acc input = .fail [(e, "un match end name")] := by
  unfold cut_layer_finish
  rw [h1]
  simp only [PRes.bind]
  rw [h2]
  simp only [PRes.bind]
  rw [if_neg hne]

theorem routing_finish_ok_name {name : String} {acc : RoutingAcc} {input rest : Str}
    {ly : LefRoutingLayer} (h : routing_layer_finish name acc input = .ok rest ly) :
    ly.name = name := by
  unfold routing_layer_finish at h
  simp only [PRes.bind] at h
  split at h
  case h_2 => exact absurd h (by simp)
  case h_3 => exact absurd h (by simp)
  case h_1 i1 v1 heq1 =>
    split at h
    case h_2 => exact absurd h (by simp)
    case h_3 => exact absurd h (by simp)
    case h_1 i2 e heq2 =>
      split at h
      · injection h with h1 h2
        rw [← h2]
      · exact absurd h (by simp)

theorem routing_finish_mismatch {name : String} {acc : RoutingAcc} {input i1 i2 v1 e : Str}
    (h1 : ws (tagP "END") input = .ok i1 v1) (h2 : ws lef_identifier i1 = .ok i2 e)
    (hne : name ≠ String.mk e) :
    routing_layer_finish name acc input = .fail [(e, "un match end name")] := by
  unfold routing_layer_finish
  rw [h1]
  simp only [PRes.bind]
  rw [h2]
  simp only [PRes.bind]
  rw [if_neg hne]

theorem implant_finish_ok_name {name : String} {acc : ImplantAcc} {input rest : Str}
    {ly : LefImplantLayer} (h : implant_layer_finish name acc input = .ok rest ly) :
    ly.name = name := by
  unfold implant_layer_finish at h
  simp only [PRes.bind] at h
  split at h
  case h_2 => exact absurd h (by simp)
  case h_3 => exact absurd h (by simp)
  case h_1 i1 v1 heq1 =>
    split at h
    case h_2 => exact absurd h (by simp)
    case h_3 => exact absurd h (by simp)
    case h_1 i2 e heq2 =>
      split at h
      · injection h with h1 h2
        rw [← h2]
      · exact absurd h (by simp)

theorem special_finish_ok_name {name : String} {tp : LefSpecialLayerType}
    {acc : SpecialAcc} {input rest : Str} {ly : LefSpecialLayer}
    (h : special_layer_finish name tp acc input = .ok rest ly) :
    ly.name = name := by
  unfold special_layer_finish at h
  simp only [PRes.bind] at h
  split at h
  case h_2 => exact absurd h (by simp)
  case h_3 => exact absurd h (by simp)
  case h_1 i1 v1 heq1 =>
    split at h
    case h_2 => exact absurd h (by simp)
    case h_3 => exact absurd h (by simp)
    case h_1 i2 e heq2 =>
      split at h
      · injection h with h1 h2
        rw [← h2]
      · exact absurd h (by simp)


theorem implant_finish_mismatch {name : String} {acc : ImplantAcc} {input i1 i2 v1 e : Str}
    (h1 : ws (tagP "END") input = .ok i1 v1) (h2 : ws lef_identifier i1 = .ok i2 e)
    (hne : name ≠ String.mk e) :
    implant_layer_finish name acc input = .fail [(e, "un match end name")] := by
  unfold implant_layer_finish
  rw [h1]
  simp only [PRes.bind]
  rw [h2]
  simp only [PRes.bind]
  rw [if_neg hne]

theorem special_finish_mismatch {name : String} {tp : LefSpecialLayerType}
    {acc : SpecialAcc} {input i1 i2 v1 e : Str}
    (h1 : ws (tagP "END") input = .ok i1 v1) (h2 : ws lef_identifier i1 = .ok i2 e)
    (hne : name ≠ String.mk e) :
    special_layer_finish name tp acc input = .fail [(e, "un match end name")] := by
  unfold special_layer_finish
  rw [h1]
  simp only [PRes.bind]
  rw [h2]
  simp only [PRes.bind]
  rw [if_neg hne]

/-! ## Lemmas for the MOSFET parameter loop -/

theorem mosStep_fst (acc : Option Length × Option Length × List (String × Number))
    (kv : String × Number) :
    (mosStep acc kv).1 =
      if kv.1.data.map Char.toLower = "l".data then some kv.2 else acc.1 := by
  by_cases h1 : kv.1.data.map Char.toLower = "l".data
  · simp [mosStep, h1]
  · by_cases h2 : kv.1.data.map Char.toLower = "w".data <;> simp [mosStep, h1, h2]

theorem mosStep_snd (acc : Option Length × Option Length × List (String × Number))
    (kv : String × Number) :
    (mosStep acc kv).2.1 =
      if kv.1.data.map Char.toLower = "w".data then some kv.2 else acc.2.1 := by
  by_cases h1 : kv.1.data.map Char.toLower = "l".data
  · have h2 : ¬ kv.1.data.map Char.toLower = "w".data := by
      rw [h1]
      decide
    simp [mosStep, h1, h2]
  · by_cases h2 : kv.1.data.map Char.toLower = "w".data <;> simp [mosStep, h1, h2]

theorem mosStep_params (acc : Option Length × Option Length × List (String × Number))
    (kv : String × Number) :
    (mosStep acc kv).2.2 =
      if mosIsLW kv then acc.2.2 else hmInsert acc.2.2 kv.1 kv.2 := by
  by_cases h1 : kv.1.data.map Char.toLower = "l".data
  · simp [mosStep, mosIsLW, h1]
  · by_cases h2 : kv.1.data.map Char.toLower = "w".data <;> simp [mosStep, mosIsLW, h1, h2]

theorem mosFold_fst_none (pairs : List (String × Number)) :
    ∀ acc, ((pairs.foldl mosStep acc).1 = none ↔
      acc.1 = none ∧ ∀ kv ∈ pairs, ¬ kv.1.data.map Char.toLower = "l".data) := by
  induction pairs with
  | nil => intro acc; simp
  | cons kv rest ih =>
    intro acc
    rw [List.foldl_cons, ih]
    constructor
    · rintro ⟨hstep, hrest⟩
      rw [mosStep_fst] at hstep
      by_cases hl : kv.1.data.map Char.toLower = "l".data
      · rw [if_pos hl] at hstep
        exact absurd hstep (by simp)
      · rw [if_neg hl] at hstep
        refine ⟨hstep, ?_⟩
        intro kv' hkv'
        rcases List.mem_cons.mp hkv' with h | h
        · rw [h]; exact hl
        · exact hrest kv' h
    · rintro ⟨hacc, hall⟩
      have hl := hall kv (List.mem_cons_self kv rest)
      refine ⟨?_, fun kv' h => hall kv' (List.mem_cons_of_mem kv h)⟩
      rw [mosStep_fst, if_neg hl]
      exact hacc

theorem mosFold_snd_none (pairs : List (String × Number)) :
    ∀ acc, ((pairs.foldl mosStep acc).2.1 = none ↔
      acc.2.1 = none ∧ ∀ kv ∈ pairs, ¬ kv.1.data.map Char.toLower = "w".data) := by
  induction pairs with
  | nil => intro acc; simp
  | cons kv rest ih =>
    intro acc
    rw [List.foldl_cons, ih]
    constructor
    · rintro ⟨hstep, hrest⟩
      rw [mosStep_snd] at hstep
      by_cases hw : kv.1.data.map Char.toLower = "w".data
      · rw [if_pos hw] at hstep
        exact absurd hstep (by simp)
      · rw [if_neg hw] at hstep
        refine ⟨hstep, ?_⟩
        intro kv' hkv'
        rcases List.mem_cons.mp hkv' with h | h
        · rw [h]; exact hw
        · exact hrest kv' h
    · rintro ⟨hacc, hall⟩
      have hw := hall kv (List.mem_cons_self kv rest)
      refine ⟨?_, fun kv' h => hall kv' (List.mem_cons_of_mem kv h)⟩
      rw [mosStep_snd, if_neg hw]
      exact hacc

theorem mosFold_params (pairs : List (String × Number)) :
    ∀ acc, (pairs.foldl mosStep acc).2.2 =
      (pairs.filter (fun kv => ! mosIsLW kv)).foldl
        (fun m kv => hmInsert m kv.1 kv.2) acc.2.2 := by
  induction pairs with
  | nil => intro acc; simp
  | cons kv rest ih =>
    intro acc
    rw [List.foldl_cons, ih, List.filter_cons]
    by_cases hlw : mosIsLW kv
    · simp only [hlw, Bool.not_true, if_neg (by simp : ¬ (false = true))]
      rw [mosStep_params, if_pos hlw]
    · simp only [hlw, Bool.not_false, if_true, List.foldl_cons]
      rw [mosStep_params, if_neg hlw]

theorem mosFinish_missing {n d g s b mn : String} {pairs : List (String × Number)}
    {input : Str}
    (hmiss : (mosProcess pairs).1 = none ∨ (mosProcess pairs).2.1 = none) :
    (mosFinish n d g s b mn pairs input).isFail = true := by
  unfold mosFinish
  rcases hmp : mosProcess pairs with ⟨l, w, params⟩
  rw [hmp] at hmiss
  cases l with
  | some lv =>
    cases w with
    | some wv => simp at hmiss
    | none => rfl
  | none => rfl

theorem mosFinish_resolved {n d g s b mn : String} {pairs : List (String × Number)}
    {input : Str} {l w : Length} {params : List (String × Number)}
    (hmp : mosProcess pairs = (some l, some w, params)) :
    mosFinish n d g s b mn pairs input =
      .ok input { name := n, drain := d, gate := g, source := s, bulk := b,
                  model_name := mn, length := l, width := w, parameters := params } := by
  unfold mosFinish
  rw [hmp]

/-! ## The claims -/

/-- Claim C1: the component grammar implements the two-tier failure model.
For the resistor production, `"Rhhh 1 n2 _"` (the `R` type letter matches,
so the production is committed, but `_` is not a valid resistance value)
returns a fatal `Err::Failure`, while `"Xhhh 1 n2 1.5k"` (wrong type
letter) returns a plain recoverable `Err::Error`; consequently the
top-level statement alternation propagates the first input's failure as
fatal but recovers on the second input (which another alternative, the
instance production, then parses). -/
theorem c1_two_tier_failure_model :
    (resistor "Rhhh 1 n2 _".data).isFail = true ∧
    (resistor "Xhhh 1 n2 1.5k".data).isErr = true ∧
    (statement "Rhhh 1 n2 _".data).isFail = true ∧
    (statement "Xhhh 1 n2 1.5k".data).isOk = true := by decide

/-- Claim C2 (code bug): the quantity-specific number parsers follow the
suffix table — `"1.5meg"` parses as magnitude 1.5 with mega scale (the
`meg` row precedes the `m` row), `g`/`k`/`m`/`u`/`n`/`p` map to their
scales, and a bare unit letter maps to no scale for voltage (`V`), current
(`A`), capacitance (`F`) and time (`s`) — EXCEPT that `inductance_number`
maps the bare unit letter `H` to the PICO scale
(`rspice/src/parse/base.rs` line 343), contradicting the claimed table and
the uniform pattern of every sibling parser: `"1H"` evaluates to magnitude
1 with pico scale instead of no scale. -/
theorem c2_suffix_table_and_inductance_h :
    number "1.5meg".data = .ok [] ⟨⟨15, 1⟩, .Mega⟩ ∧
    number "2g".data = .ok [] ⟨⟨2, 0⟩, .Mega⟩ ∧
    number "2k".data = .ok [] ⟨⟨2, 0⟩, .Kilo⟩ ∧
    number "2m".data = .ok [] ⟨⟨2, 0⟩, .Milli⟩ ∧
    number "2u".data = .ok [] ⟨⟨2, 0⟩, .Micro⟩ ∧
    number "2n".data = .ok [] ⟨⟨2, 0⟩, .Nano⟩ ∧
    number "2p".data = .ok [] ⟨⟨2, 0⟩, .Pico⟩ ∧
    number "2".data = .ok [] ⟨⟨2, 0⟩, .None⟩ ∧
    voltage_number "1V".data = .ok [] ⟨⟨1, 0⟩, .None⟩ ∧
    current_number "1A".data = .ok [] ⟨⟨1, 0⟩, .None⟩ ∧
    capacitance_number "1F".data = .ok [] ⟨⟨1, 0⟩, .None⟩ ∧
    time_number "1s".data = .ok [] ⟨⟨1, 0⟩, .None⟩ ∧
    inductance_number "1H".data = .ok [] ⟨⟨1, 0⟩, .Pico⟩ := by decide

/-- Claim C3: `"V1 1 0 \n+ DC 5"` (statement continued via newline-plus)
parses to exactly the same source value — and the same remaining input —
as `"V1 1 0 DC 5"`; the SPICE skipper consumes a newline together with an
immediately following `'+'` and following horizontal space, while a bare
newline terminates skipping. -/
theorem c3_line_continuation :
    source "V1 1 0 \n+ DC 5".data = source "V1 1 0 DC 5".data ∧
    source "V1 1 0 DC 5".data =
      .ok [] { name := "1", node_pos := "1", node_neg := "0",
               value := .DcVoltage ⟨⟨5, 0⟩, .None⟩ } ∧
    smart_space0 " \n+ DC 5".data = "DC 5".data ∧
    smart_space0 " \nDC 5".data = "\nDC 5".data := by decide

/-- Claim C4: for every LEF LAYER block kind, the parse succeeds only when
the name after the closing `END` equals the opening layer name (any
successfully built layer stores the opening name, and the success branch
is guarded by the equality), and on mismatch the result is unconditionally
`Err::Failure` with the name-mismatch diagnostic; concretely,
`"LAYER m1 TYPE CUT ; END m1"` succeeds and
`"LAYER m1 TYPE CUT ; END m2"` fails fatally. -/
theorem c4_end_name_check :
    layer "LAYER m1 TYPE CUT ; END m1".data =
      .ok [] (.Cut { name := "m1", mask := none, width := none,
                     spacing := [], enclosures := [] }) ∧
    (layer "LAYER m1 TYPE CUT ; END m2".data).isFail = true ∧
    (∀ (name : String) (acc : CutAcc) (input rest : Str) (ly : LefCutLayer),
       cut_layer_finish name acc input = .ok rest ly → ly.name = name) ∧
    (∀ (name : String) (acc : CutAcc) (input i1 i2 v1 e : Str),
       ws (tagP "END") input = .ok i1 v1 → ws lef_identifier i1 = .ok i2 e →
       name ≠ String.mk e →
       cut_layer_finish name acc input = .fail [(e, "un match end name")]) ∧
    (∀ (name : String) (acc : RoutingAcc) (input rest : Str) (ly : LefRoutingLayer),
       routing_layer_finish name acc input = .ok rest ly → ly.name = name) ∧
    (∀ (name : String) (acc : RoutingAcc) (input i1 i2 v1 e : Str),
       ws (tagP "END") input = .ok i1 v1 → ws lef_identifier i1 = .ok i2 e →
       name ≠ String.mk e →
       routing_layer_finish name acc input = .fail [(e, "un match end name")]) ∧
    (∀ (name : String) (acc : ImplantAcc) (input rest : Str) (ly : LefImplantLayer),
       implant_layer_finish name acc input = .ok rest ly → ly.name = name) ∧
    (∀ (name : String) (tp : LefSpecialLayerType) (acc : SpecialAcc) (input rest : Str)
       (ly : LefSpecialLayer),
       special_layer_finish name tp acc input = .ok rest ly → ly.name = name) ∧
    (∀ (name : String) (acc : ImplantAcc) (input i1 i2 v1 e : Str),
       ws (tagP "END") input = .ok i1 v1 → ws lef_identifier i1 = .ok i2 e →
       name ≠ String.mk e →
       implant_layer_finish name acc input = .fail [(e, "un match end name")]) ∧
    (∀ (name : String) (tp : LefSpecialLayerType) (acc : SpecialAcc)
       (input i1 i2 v1 e : Str),
       ws (tagP "END") input = .ok i1 v1 → ws lef_identifier i1 = .ok i2 e →
       name ≠ String.mk e →
       special_layer_finish name tp acc input = .fail [(e, "un match end name")]) := by
  refine ⟨by decide, by decide, ?_, ?_, ?_, ?_, ?_, ?_, ?_, ?_⟩
  · intro name acc input rest ly h
    exact cut_finish_ok_name h
  · intro name acc input i1 i2 v1 e h1 h2 hne
    exact cut_finish_mismatch h1 h2 hne
  · intro name acc input rest ly h
    exact routing_finish_ok_name h
  · intro name acc input i1 i2 v1 e h1 h2 hne
    exact routing_finish_mismatch h1 h2 hne
  · intro name acc input rest ly h
    exact implant_finish_ok_name h
  · intro name tp acc input rest ly h
    exact special_finish_ok_name h
  · intro name acc input i1 i2 v1 e h1 h2 hne
    exact implant_finish_mismatch h1 h2 hne
  · intro name tp acc input i1 i2 v1 e h1 h2 hne
    exact special_finish_mismatch h1 h2 hne

/-- Witness for C4: the cut-layer mismatch conjunct applied at the concrete
input `"END m2"` against the opening name `"m1"`. -/
theorem c4_end_name_check_witness :
    cut_layer_finish "m1" ⟨none, [], none, []⟩ "END m2".data =
      .fail [("m2".data, "un match end name")] :=
  c4_end_name_check.2.2.2.1 "m1" ⟨none, [], none, []⟩ "END m2".data "m2".data []
    "END".data "m2".data (by decide) (by decide) (by decide)

/-- Claim C5: the input `"R1 in out 1k\nTHIS_IS_INVALID"`, whose second
line matches no statement alternative, makes the document driver fail with
the "unknown statement" message quoting that line and its 1-based line
number 2 (computed by counting newlines before the failure offset); no
partial document is returned (the driver's result type carries either the
whole document or only the error message). -/
theorem c5_unknown_statement_line2 :
    read_spice "R1 in out 1k\nTHIS_IS_INVALID".data =
      .error "At line 2: Unknown statement: THIS_IS_INVALID" := by decide

/-- Claim C6: in the MOSFET production, `l=`/`w=` keys (matched after ASCII
lower-casing) resolve the length/width fields and every other key goes to
the generic parameter map (insert-overwrite, in order); the builder's
length (resp. width) stays unset exactly when no pair has key `l` (resp.
`w`) case-insensitively; when either is unset the production finishes with
a fatal `Err::Failure`, and when both are set it succeeds with exactly
those fields.  Concretely, `"M1 D G S B NM L=1u VTH=0.7 KP=20u\n"` (no
width) fails fatally, and `"M1 D G S B NM l=1u W=5u VTH=0.7\n"` succeeds
with length 1 micro, width 5 micro and `VTH` in the parameter map. -/
theorem c6_mosfet_lw_resolution :
    (∀ pairs : List (String × Number),
       ((mosProcess pairs).1 = none ↔
         ∀ kv ∈ pairs, ¬ kv.1.data.map Char.toLower = "l".data)) ∧
    (∀ pairs : List (String × Number),
       ((mosProcess pairs).2.1 = none ↔
         ∀ kv ∈ pairs, ¬ kv.1.data.map Char.toLower = "w".data)) ∧
    (∀ pairs : List (String × Number),
       (mosProcess pairs).2.2 =
         (pairs.filter (fun kv => ! mosIsLW kv)).foldl
           (fun m kv => hmInsert m kv.1 kv.2) []) ∧
    (∀ (n d g s b mn : String) (pairs : List (String × Number)) (input : Str),
       ((mosProcess pairs).1 = none ∨ (mosProcess pairs).2.1 = none) →
       (mosFinish n d g s b mn pairs input).isFail = true) ∧
    (∀ (n d g s b mn : String) (pairs : List (String × Number)) (input : Str)
       (l w : Length) (params : List (String × Number)),
       mosProcess pairs = (some l, some w, params) →
       mosFinish n d g s b mn pairs input =
         .ok input { name := n, drain := d, gate := g, source := s, bulk := b,
                     model_name := mn, length := l, width := w,
                     parameters := params }) ∧
    (mos_fet "M1 D G S B NM L=1u VTH=0.7 KP=20u\n".data).isFail = true ∧
    mos_fet "M1 D G S B NM l=1u W=5u VTH=0.7\n".data =
      .ok "\n".data { name := "1", drain := "D", gate := "G", source := "S",
                      bulk := "B", model_name := "NM",
                      length := ⟨⟨1, 0⟩, .Micro⟩, width := ⟨⟨5, 0⟩, .Micro⟩,
                      parameters := [("VTH", ⟨⟨7, 1⟩, .None⟩)] } := by
  refine ⟨?_, ?_, ?_, ?_, ?_, by decide, by decide⟩
  · intro pairs
    unfold mosProcess
    rw [mosFold_fst_none pairs (none, none, [])]
    simp
  · intro pairs
    unfold mosProcess
    rw [mosFold_snd_none pairs (none, none, [])]
    simp
  · intro pairs
    unfold mosProcess
    rw [mosFold_params pairs (none, none, [])]
  · intro n d g s b mn pairs input h
    exact mosFinish_missing h
  · intro n d g s b mn pairs input l w params h
    exact mosFinish_resolved h

/-- Witness for C6: the missing-width conjunct applied at a concrete pair
list holding only a `VTH` key. -/
theorem c6_mosfet_lw_resolution_witness :
    (mosFinish "1" "D" "G" "S" "B" "NM" [("VTH", ⟨⟨7, 1⟩, .None⟩)] []).isFail = true :=
  c6_mosfet_lw_resolution.2.2.2.1 "1" "D" "G" "S" "B" "NM"
    [("VTH", ⟨⟨7, 1⟩, .None⟩)] [] (Or.inl (by decide))

/-- Claim C7: in the LEF header, an optional `USEMINSPACING <tok> ;`
statement maps BOTH the case-sensitive token `"ON"` and the token `"OFF"`
to the same enum value `LefUseMinSpacing::On`, and any other identifier
token (including lower-case `"on"`) makes the parse fail fatally; when the
whole optional tuple does not match, the field is left unset and parsing
continues. -/
theorem c7_useminspacing_on_off_same :
    use_min_spacing_stmt "USEMINSPACING ON ;".data = .ok [] (some .On) ∧
    use_min_spacing_stmt "USEMINSPACING OFF ;".data = .ok [] (some .On) ∧
    (use_min_spacing_stmt "USEMINSPACING MAYBE ;".data).isFail = true ∧
    (use_min_spacing_stmt "USEMINSPACING on ;".data).isFail = true ∧
    (∀ (input i tok : Str), use_min_spacing_triple input = .ok i tok →
       ((String.mk tok = "ON" ∨ String.mk tok = "OFF") →
          use_min_spacing_stmt input = .ok i (some .On)) ∧
       (String.mk tok ≠ "ON" → String.mk tok ≠ "OFF" →
          use_min_spacing_stmt input =
            .fail [(tok, "expected USEMINSPACING ON or OFF")])) ∧
    (∀ (input : Str) (e : VErrors), use_min_spacing_triple input = .err e →
       use_min_spacing_stmt input = .ok input none) := by
  refine ⟨by decide, by decide, by decide, by decide, ?_, ?_⟩
  · intro input i tok h
    constructor
    · intro hor
      unfold use_min_spacing_stmt optP
      rw [h]
      simp only [PRes.bind]
      rcases hor with h1 | h1 <;> simp [h1]
    · intro hn1 hn2
      unfold use_min_spacing_stmt optP
      rw [h]
      simp only [PRes.bind]
      rw [if_neg hn1, if_neg hn2]
  · intro input e h
    unfold use_min_spacing_stmt optP
    rw [h]
    rfl

/-- Witness for C7: the general token classification applied at the
concrete input `"USEMINSPACING XYZ ;"`. -/
theorem c7_useminspacing_on_off_same_witness :
    use_min_spacing_stmt "USEMINSPACING XYZ ;".data =
      .fail [("XYZ".data, "expected USEMINSPACING ON or OFF")] :=
  (c7_useminspacing_on_off_same.2.2.2.2.1 "USEMINSPACING XYZ ;".data [] "XYZ".data
    (by decide)).2 (by decide) (by decide)

/-- Claim C8 counterexample: the LEF float recognizer does NOT read
`"1_000"` as the value 1000 — the underscore survives into the recognized
text and the float conversion rejects it, so the parse fails with a
recoverable error. -/
theorem c8_underscore_counterexample :
    (lef_float "1_000".data).isErr = true ∧
    lef_float "1_000".data ≠ .ok [] ⟨1000, 0⟩ := by decide

/-- Claim C8 as amended: underscores between digits are tolerated by the
shared lexical `decimal` recognizer of BOTH the LEF and the SPICE float
parsers, but the recognized text is converted with the standard float
conversion, which rejects underscores; hence `"1_000"` fails to parse as a
float in both LEF and SPICE (neither reads it as 1000), while `"1000"`
parses as 1000 in both. -/
theorem c8_underscore_amended :
    (lef_float "1_000".data).isErr = true ∧
    (float "1_000".data).isErr = true ∧
    lef_float "1000".data = .ok [] ⟨1000, 0⟩ ∧
    float "1000".data = .ok [] ⟨1000, 0⟩ ∧
    decimal "1_000".data = .ok [] "1_000".data := by decide

/-- Claim C9 counterexample: a component line whose designator is the bare
type letter parses successfully with an EMPTY stored name — `"R 1 2 1.5k"`
yields a resistor named `""`, refuting the claim that every successfully
parsed component has a non-empty name. -/
theorem c9_empty_name_counterexample :
    component "R 1 2 1.5k".data =
      .ok [] (.R { name := "", node_pos := "1", node_neg := "2",
                   resistance := ⟨⟨15, 1⟩, .Kilo⟩ }) := by decide

/-- Claim C9 as amended: for every successfully parsed component of any of
the 6 element kinds, the stored name is the designator token — the ONE
token recognized by `hws identifier` at the start of the line, pinned down
by the `hws identifier input = .ok i0 tok` conjunct — with its single
type-prefix letter stripped; it is empty exactly when that designator is a
single letter, and non-empty otherwise. -/
theorem c9_name_prefix_stripped :
    ∀ (input rest : Str) (c : Component), component input = .ok rest c →
      ∃ (i0 tok : Str), hws identifier input = .ok i0 tok ∧ tok ≠ [] ∧
        componentName c = String.mk (tok.drop 1) ∧
        (componentName c = "" ↔ tok.length = 1) := by
  intro input rest c h
  obtain ⟨i0, tok, hp, hne, hn⟩ := component_name_shape h
  refine ⟨i0, tok, hp, hne, hn, ?_⟩
  rw [hn, String.ext_iff]
  simpa using drop_one_nil_iff hne

/-- Witness for C9: the amended name-shape applied to the concrete parse of
`"R1 a b 1k"` (where `hws identifier` recognizes exactly the token `R1`,
so the existential is forced to `tok = "R1".data`). -/
theorem c9_name_prefix_stripped_witness :
    ∃ (i0 tok : Str), hws identifier "R1 a b 1k".data = .ok i0 tok ∧ tok ≠ [] ∧
      componentName (.R { name := "1", node_pos := "a", node_neg := "b",
                          resistance := ⟨⟨1, 0⟩, .Kilo⟩ }) = String.mk (tok.drop 1) ∧
      (componentName (.R { name := "1", node_pos := "a", node_neg := "b",
                           resistance := ⟨⟨1, 0⟩, .Kilo⟩ }) = "" ↔ tok.length = 1) :=
  c9_name_prefix_stripped "R1 a b 1k".data []
    (.R { name := "1", node_pos := "a", node_neg := "b",
          resistance := ⟨⟨1, 0⟩, .Kilo⟩ }) (by decide)

/-- Claim C10: every successfully parsed instance line stores the FULL
identifier token (which begins with `X`/`x`) as the instance name, with no
prefix stripping — unlike components and sources, whose stored name drops
the leading type letter, as the resistor name-shape and the concrete
resistor/source parses show. -/
theorem c10_instance_name_unstripped :
    (∀ (input rest : Str) (inst : Instance), instanceStmt input = .ok rest inst →
       ∃ tok : Str, tok ≠ [] ∧ (tok.head? = some 'X' ∨ tok.head? = some 'x') ∧
         inst.name = String.mk tok) ∧
    (∀ (input rest : Str) (r : Resistor), resistor input = .ok rest r →
       ∃ tok : Str, tok ≠ [] ∧ r.name = String.mk (tok.drop 1)) ∧
    instanceStmt "X1 a b inv".data =
      .ok [] { name := "X1", pins := ["a", "b"], subckt_name := "inv" } ∧
    resistor "R1 a b 1k".data =
      .ok [] { name := "1", node_pos := "a", node_neg := "b",
               resistance := ⟨⟨1, 0⟩, .Kilo⟩ } ∧
    source "V1 a b 5".data =
      .ok [] { name := "1", node_pos := "a", node_neg := "b",
               value := .DcVoltage ⟨⟨5, 0⟩, .None⟩ } := by
  refine ⟨?_, ?_, by decide, by decide, by decide⟩
  · intro input rest inst h
    exact instanceStmt_name h
  · intro input rest r h
    obtain ⟨i0, tok, _, hne, _, hn⟩ := resistor_name h
    exact ⟨tok, hne, hn⟩

/-- Witness for C10: the instance name-shape applied to the concrete parse
of `"X1 a b inv"`. -/
theorem c10_instance_name_unstripped_witness :
    ∃ tok : Str, tok ≠ [] ∧ (tok.head? = some 'X' ∨ tok.head? = some 'x') ∧
      ({ name := "X1", pins := ["a", "b"], subckt_name := "inv" } : Instance).name =
        String.mk tok :=
  c10_instance_name_unstripped.1 "X1 a b inv".data []
    { name := "X1", pins := ["a", "b"], subckt_name := "inv" } (by decide)
